import Mathlib

/-!
Verification of glThrowaway, an instanced particle viewer (`src/main.cc`).

A shallow embedding of the camera controller (`handle_controls`), the particle
store (`add_random_particle`), the particle record layout (`visual_particle`),
the icosahedron index table (`particle_elements`) and the renderer's GL call
sequence (`draw_particles`), followed by theorems about them.

Modelling conventions.

* The program's `float` is a type `F` with the operations of `FloatArith`.
  `Binary32` is IEEE 754 single precision (round to nearest, ties to even,
  with signed zeros, infinities and NaN), built on natural-number arithmetic
  so that the definitions evaluate on concrete inputs; every `float`
  operation of the source is one rounded operation (no fused multiply-add, no
  excess precision).  Every linearly ordered
  field is an instance as well (exact arithmetic, an idealisation: no
  rounding, and `x / 0 = 0`); theorems stated over a field say what the
  formulas of the code give without rounding, and those that need the true
  sine and cosine instantiate `F = ℝ`.
* An `int` product that leaves the 32-bit range is taken as the two's
  complement wrap (`wrap_int32`).
* `glm::clamp`, `glm::min` and `glm::max` are the comparisons of the glm
  headers, which are not part of the sources under `src/`.
* Everything the program takes from a library (libm `sinf`/`cosf`, the glm
  matrix and vector helpers, `std::mt19937`) is a field of `Externals`.
* The function-local statics of `handle_controls`, the globals it writes and
  its two reference arguments are the fields of `ProgramState`.
* The SDL event queue drained by `SDL_PollEvent` is a `List SDL_Event`.
* Where the layout of a record in memory matters, a `float` is its 32-bit
  pattern (`Float32Bits`) and memory is a list of bytes.
-/

namespace GlThrowaway

/-! ## The arithmetic of `float` -/

/-- The operations of the C++ type `float` that the program uses: the
constants 0 and 1, `+ - * /`, unary minus, the test `<`, the conversions from
unsigned and signed integers, float literals (`OfScientific`), and
`ofDoubleProduct n m s e`, the value of `(float)(n * c)` for an unsigned
integer `n` and the `double` literal `c` written `m` times ten to the power
`e` (negated when `s`), the product being a `double`.  Nothing is assumed of
them here; `FloatArith.ofField` is exact arithmetic and the instance on
`Binary32` is IEEE 754 single precision. -/
class FloatArith (F : Type) extends Zero F, One F, Add F, Sub F, Mul F, Div F, Neg F, LT F,
    NatCast F, IntCast F, OfScientific F where
  decLt : DecidableRel (fun x y : F => x < y)
  ofDoubleProduct : Nat → Nat → Bool → Nat → F

attribute [instance] FloatArith.decLt

/-- Exact arithmetic: the operations of a linearly ordered field (no rounding,
no overflow, no NaN; division by zero gives 0). -/
instance (priority := low) FloatArith.ofField {F : Type} [LinearOrderedField F] : FloatArith F where
  decLt := inferInstance
  ofDoubleProduct := fun n m s e => (n : F) * OfScientific.ofScientific m s e

/-- The facts about `float` arithmetic that the theorems on rounded arithmetic
rest on; they hold for exact arithmetic and for IEEE 754 single precision. -/
structure FloatLaws (F : Type) [FloatArith F] : Prop where
  lt_irrefl : ∀ x : F, ¬ x < x
  lt_asymm : ∀ x y : F, x < y → ¬ y < x
  phi_range : (0.01 : F) < 3.13
  neg_mul : ∀ x y : F, -x * y = -(x * y)
  intCast_neg : ∀ n : Int, n ≠ 0 → ((-n : Int) : F) = -((n : Int) : F)

/-- The number of binary digits of `n` (at most `fuel` of them). -/
def bit_length : Nat → Nat → Nat
  | 0, _ => 0
  | fuel + 1, n => if n = 0 then 0 else bit_length fuel (n / 2) + 1

/-- Round to nearest, ties to even: the positive rational `num / den * 2 ^ e2`
rounded to a significand of `prec` bits with least exponent `emin`, as the
pair `(m, e)` of the result `m * 2 ^ e`; `none` when the exponent would exceed
`emax` (overflow). -/
def round_mag (prec : Nat) (emin emax : Int) (num den : Nat) (e2 : Int) : Option (Nat × Int) :=
  let k0 : Int := (bit_length 4096 num : Int) - (bit_length 4096 den : Int)
  let ge : Bool :=
    if 0 ≤ k0 then decide (den * 2 ^ k0.toNat ≤ num) else decide (den ≤ num * 2 ^ (-k0).toNat)
  let l : Int := e2 + (if ge then k0 else k0 - 1)
  let e : Int := max emin (l - ((prec : Int) - 1))
  let s : Int := e2 - e
  let n : Nat := num * 2 ^ s.toNat
  let d : Nat := den * 2 ^ (-s).toNat
  let q : Nat := n / d
  let r : Nat := n % d
  let q1 : Nat := if d < 2 * r ∨ (2 * r = d ∧ q % 2 = 1) then q + 1 else q
  let res : Nat × Int := if q1 = 2 ^ prec then (2 ^ (prec - 1), e + 1) else (q1, e)
  if emax < res.2 then none else some res

/-- An IEEE 754 binary32 value: NaN, an infinity, or the finite value
`(-1) ^ sign * mant * 2 ^ exp`, kept with `2 ^ 23 ≤ mant < 2 ^ 24` and
`-149 ≤ exp ≤ 104`, or `mant < 2 ^ 23` and `exp = -149` (zeros and
subnormals). -/
inductive Binary32
  | nan
  | inf (sign : Bool)
  | fin (sign : Bool) (mant : Nat) (exp : Int)
deriving DecidableEq, Repr

namespace Binary32

/-- The zero of the given sign. -/
def zero (sign : Bool) : Binary32 := fin sign 0 (-149)

/-- The float nearest to `(-1) ^ sign * num / den * 2 ^ e2` (ties to even),
an infinity on overflow. -/
def round (sign : Bool) (num den : Nat) (e2 : Int) : Binary32 :=
  if num = 0 then zero sign
  else
    match round_mag 24 (-149) 104 num den e2 with
    | none => inf sign
    | some (m, e) => fin sign m e

/-- Unary minus. -/
def neg : Binary32 → Binary32
  | nan => nan
  | inf s => inf (!s)
  | fin s m e => fin (!s) m e

/-- The conversion of an integer to `float`. -/
def ofInt (n : Int) : Binary32 := round (decide (n < 0)) n.natAbs 1 0

/-- The product. -/
def mul : Binary32 → Binary32 → Binary32
  | nan, _ => nan
  | _, nan => nan
  | inf s1, inf s2 => inf (xor s1 s2)
  | inf s1, fin s2 m2 _ => if m2 = 0 then nan else inf (xor s1 s2)
  | fin s1 m1 _, inf s2 => if m1 = 0 then nan else inf (xor s1 s2)
  | fin s1 m1 e1, fin s2 m2 e2 => round (xor s1 s2) (m1 * m2) 1 (e1 + e2)

/-- The sum: exact on the integers `mant * 2 ^ (exp - e)`, then rounded; a zero
added to a nonzero value leaves it, and an exact sum of zero is `+0`. -/
def add : Binary32 → Binary32 → Binary32
  | nan, _ => nan
  | _, nan => nan
  | inf s1, inf s2 => if s1 = s2 then inf s1 else nan
  | inf s1, fin _ _ _ => inf s1
  | fin _ _ _, inf s2 => inf s2
  | fin s1 m1 e1, fin s2 m2 e2 =>
    if m1 = 0 ∧ m2 = 0 then zero (s1 && s2)
    else if m2 = 0 then fin s1 m1 e1
    else if m1 = 0 then fin s2 m2 e2
    else
      let e := min e1 e2
      let i1 : Int := (if s1 then -1 else 1) * ((m1 * 2 ^ (e1 - e).toNat : Nat) : Int)
      let i2 : Int := (if s2 then -1 else 1) * ((m2 * 2 ^ (e2 - e).toNat : Nat) : Int)
      let sum := i1 + i2
      if sum = 0 then zero false else round (decide (sum < 0)) sum.natAbs 1 e

/-- The quotient; a nonzero value divided by a zero is an infinity, `0 / 0` and
`inf / inf` are NaN. -/
def div : Binary32 → Binary32 → Binary32
  | nan, _ => nan
  | _, nan => nan
  | inf _, inf _ => nan
  | inf s1, fin s2 _ _ => inf (xor s1 s2)
  | fin s1 _ _, inf s2 => zero (xor s1 s2)
  | fin s1 m1 e1, fin s2 m2 e2 =>
    if m2 = 0 then (if m1 = 0 then nan else inf (xor s1 s2))
    else round (xor s1 s2) m1 m2 (e1 - e2)

/-- The float literal `mantissa * 10 ^ (± decimalExponent)`. -/
def ofScientific (mantissa : Nat) (exponentSign : Bool) (decimalExponent : Nat) : Binary32 :=
  if exponentSign then round false mantissa (10 ^ decimalExponent) 0
  else round false (mantissa * 10 ^ decimalExponent) 1 0

/-- The value in units of `2 ^ (-149)`, an integer for every finite float; the
infinities are put beyond every finite value. -/
def scaled : Binary32 → Int
  | nan => 0
  | inf s => if s then -((2 ^ 150 * 2 ^ 150 : Nat) : Int) else ((2 ^ 150 * 2 ^ 150 : Nat) : Int)
  | fin s m e => (if s then -1 else 1) * ((m * 2 ^ (e + 149).toNat : Nat) : Int)

/-- The test `a < b`: false when either side is NaN. -/
def blt : Binary32 → Binary32 → Bool
  | nan, _ => false
  | _, nan => false
  | a, b => decide (scaled a < scaled b)

/-- Whether the value is finite (neither NaN nor an infinity). -/
def is_finite : Binary32 → Bool
  | fin _ _ _ => true
  | _ => false

/-- Whether the value is one of the two zeros. -/
def is_zero : Binary32 → Bool
  | fin _ m _ => decide (m = 0)
  | _ => false

/-- The value of `(float)(n * c)`: the literal `c` rounded to `double`, the
product rounded to `double`, the result rounded to `float`. -/
def ofDoubleProduct (n mantissa : Nat) (exponentSign : Bool) (decimalExponent : Nat) :
    Binary32 :=
  let c : Option (Nat × Int) :=
    if exponentSign then round_mag 53 (-1074) 971 mantissa (10 ^ decimalExponent) 0
    else round_mag 53 (-1074) 971 (mantissa * 10 ^ decimalExponent) 1 0
  match c with
  | none => if n = 0 then nan else inf false
  | some (mc, ec) =>
    if n * mc = 0 then zero false
    else
      match round_mag 53 (-1074) 971 (n * mc) 1 ec with
      | none => inf false
      | some (mp, ep) => round false mp 1 ep

end Binary32

/-- IEEE 754 single precision as the arithmetic of `float`. -/
instance : FloatArith Binary32 where
  zero := Binary32.zero false
  one := Binary32.ofInt 1
  add := Binary32.add
  sub := fun a b => Binary32.add a (Binary32.neg b)
  mul := Binary32.mul
  div := Binary32.div
  neg := Binary32.neg
  lt := fun a b => Binary32.blt a b = true
  natCast := fun n => Binary32.ofInt n
  intCast := Binary32.ofInt
  ofScientific := Binary32.ofScientific
  decLt := fun a b => inferInstanceAs (Decidable (Binary32.blt a b = true))
  ofDoubleProduct := Binary32.ofDoubleProduct

/-- The value of an `int` expression that left the 32-bit range, taken as the
two's complement wrap.  In the program this concerns only the product
`-1 * event.wheel.y` for the payload `INT_MIN`. -/
def wrap_int32 (n : Int) : Int := (n + 2147483648) % 4294967296 - 2147483648

/-! ## Vectors (`glm::vec3`) -/

/-- The `glm::vec3` triple. -/
structure Vec3 (F : Type) where
  x : F
  y : F
  z : F
deriving DecidableEq, Repr

namespace Vec3

variable {F : Type}

/-- Componentwise `vec3 + vec3`. -/
def add [Add F] (u v : Vec3 F) : Vec3 F := ⟨u.x + v.x, u.y + v.y, u.z + v.z⟩

/-- Componentwise `vec3 - vec3`. -/
def sub [Sub F] (u v : Vec3 F) : Vec3 F := ⟨u.x - v.x, u.y - v.y, u.z - v.z⟩

/-- The product `float * vec3`. -/
def smul [Mul F] (k : F) (v : Vec3 F) : Vec3 F := ⟨k * v.x, k * v.y, k * v.z⟩

/-- The product `vec3 * float`. -/
def muls [Mul F] (v : Vec3 F) (k : F) : Vec3 F := ⟨v.x * k, v.y * k, v.z * k⟩

end Vec3

/-! ## The particle record -/

/-- The `struct visual_particle`: seven `float` members in declaration order. -/
structure visual_particle (F : Type) where
  x : F
  y : F
  z : F
  red : F
  green : F
  blue : F
  radius : F
deriving DecidableEq, Repr

/-! ## Library functions used by the program -/

/-- What the program calls but does not define: libm, glm and the Mersenne
twister.  `F` is the type of `float`, `M` of `glm::mat4`, `R` of the state of
`std::mt19937`; `rng_next` is `rng()`, returning the 32-bit draw and the next
state. -/
structure Externals (F M R : Type) where
  sinf : F → F
  cosf : F → F
  cross : Vec3 F → Vec3 F → Vec3 F
  normalize : Vec3 F → Vec3 F
  lookAt : Vec3 F → Vec3 F → Vec3 F → M
  perspective : F → F → F → F → M
  ortho : F → F → F → F → F → F → M
  rng_next : R → Nat × R

/-! ## SDL events -/

/-- The scancodes `handle_controls` distinguishes; every other scancode is
`SDL_SCANCODE_OTHER`. -/
inductive SDL_Scancode
  | SDL_SCANCODE_W | SDL_SCANCODE_C
  | SDL_SCANCODE_A | SDL_SCANCODE_H
  | SDL_SCANCODE_S | SDL_SCANCODE_T
  | SDL_SCANCODE_D | SDL_SCANCODE_N
  | SDL_SCANCODE_Q | SDL_SCANCODE_G
  | SDL_SCANCODE_E | SDL_SCANCODE_R
  | SDL_SCANCODE_Z
  | SDL_SCANCODE_SPACE
  | SDL_SCANCODE_X
  | SDL_SCANCODE_P
  | SDL_SCANCODE_ESCAPE
  | SDL_SCANCODE_OTHER
deriving DecidableEq, Repr

/-- The `event.window.event` identifiers; only two are looked at. -/
inductive SDL_WindowEventID
  | SDL_WINDOWEVENT_SIZE_CHANGED
  | SDL_WINDOWEVENT_RESIZED
  | SDL_WINDOWEVENT_OTHER
deriving DecidableEq, Repr

/-- One `SDL_Event`, by `event.type`, with the payload the program reads.  The
integer payloads are `Sint32` in SDL, so the events that occur carry values
from `-2 ^ 31` up to `2 ^ 31 - 1`; the wheel case of `handle_event` wraps the
`int` product it forms back into that range. -/
inductive SDL_Event
  | SDL_KEYDOWN (scancode : SDL_Scancode)
  | SDL_KEYUP (scancode : SDL_Scancode)
  | SDL_MOUSEWHEEL (x y : Int)
  | SDL_MOUSEBUTTONDOWN (x y : Int)
  | SDL_MOUSEBUTTONUP (x y : Int)
  | SDL_MOUSEMOTION (x y : Int)
  | SDL_WINDOWEVENT (event : SDL_WindowEventID) (data1 data2 : Int)
  | SDL_QUIT
  | SDL_OTHEREVENT
deriving DecidableEq, Repr

/-! ## Program state -/

/-- The state `handle_controls` reads and writes: the globals `screen_x`,
`screen_y`, `view`, `projection`, `eye`; its function-local statics
`orbit_mode`, `perspective`, `w a s d q e look_around`, `theta phi radius`,
`mouse_x mouse_y`; and its reference arguments `vp_list` and `rng`. -/
structure ProgramState (F M R : Type) where
  screen_x : Int
  screen_y : Int
  view : M
  projection : M
  eye : Vec3 F
  orbit_mode : Bool
  perspective : Bool
  w : Bool
  a : Bool
  s : Bool
  d : Bool
  q : Bool
  e : Bool
  look_around : Bool
  theta : F
  phi : F
  radius : F
  mouse_x : F
  mouse_y : F
  vp_list : List (visual_particle F)
  rng : R

section Controls

variable {F M R : Type} [FloatArith F]

/-- The constant `fovy_radians = 1.0f`. -/
def fovy_radians : F := 1.0

/-- The constant `near_plane = 0.01f`. -/
def near_plane : F := 0.01

/-- The constant `far_plane = 400.0f`. -/
def far_plane : F := 400.0

/-- The constant `radius_speed = 10.0f`. -/
def radius_speed : F := 10.0

/-- The state at program start: the initialisers of the globals and statics
(`screen_x = 1280`, `screen_y = 960`, `orbit_mode = true`,
`perspective = true`, `theta = 1.5707f`, `phi = 1.8f`, `radius = 25.0f`, the
other statics zero), an empty particle vector, and whatever the matrices, the
eye and the generator start as. -/
def initial_state (view0 projection0 : M) (eye0 : Vec3 F) (rng0 : R) : ProgramState F M R where
  screen_x := 1280
  screen_y := 960
  view := view0
  projection := projection0
  eye := eye0
  orbit_mode := true
  perspective := true
  w := false
  a := false
  s := false
  d := false
  q := false
  e := false
  look_around := false
  theta := 1.5707
  phi := 1.8
  radius := 25.0
  mouse_x := 0
  mouse_y := 0
  vp_list := []
  rng := rng0

/-- The function `add_random_particle`: six draws from the generator, in the
order x, y, z, r, g, b, scaled by `1e-9` (position) and `2.5e-10` (colour),
radius `0.1f`, and `push_back` of the record. -/
def add_random_particle (X : Externals F M R) (vp_list : List (visual_particle F)) (rng : R) :
    List (visual_particle F) × R :=
  let r1 := X.rng_next rng
  let x : F := FloatArith.ofDoubleProduct r1.1 1 true 9
  let r2 := X.rng_next r1.2
  let y : F := FloatArith.ofDoubleProduct r2.1 1 true 9
  let r3 := X.rng_next r2.2
  let z : F := FloatArith.ofDoubleProduct r3.1 1 true 9
  let r4 := X.rng_next r3.2
  let r : F := FloatArith.ofDoubleProduct r4.1 25 true 11
  let r5 := X.rng_next r4.2
  let g : F := FloatArith.ofDoubleProduct r5.1 25 true 11
  let r6 := X.rng_next r5.2
  let b : F := FloatArith.ofDoubleProduct r6.1 25 true 11
  let radius : F := 0.1
  let vp : visual_particle F := ⟨x, y, z, r, g, b, radius⟩
  (vp_list ++ [vp], r6.2)

/-- A `bool` used as an `int` (`a-d`, `e-q`, `s-w`, ...). -/
def b2i (b : Bool) : Int := if b then 1 else 0

/-- The body of the `while (SDL_PollEvent(&event))` loop of `handle_controls`:
the effect of one event on the local `no_quit` and on the state. -/
def handle_event (X : Externals F M R) (st : Bool × ProgramState F M R) (event : SDL_Event) :
    Bool × ProgramState F M R :=
  let no_quit := st.1
  let g := st.2
  match event with
  | .SDL_KEYDOWN scancode =>
    match scancode with
    | .SDL_SCANCODE_W | .SDL_SCANCODE_C => (no_quit, { g with w := true })
    | .SDL_SCANCODE_A | .SDL_SCANCODE_H => (no_quit, { g with a := true })
    | .SDL_SCANCODE_S | .SDL_SCANCODE_T => (no_quit, { g with s := true })
    | .SDL_SCANCODE_D | .SDL_SCANCODE_N => (no_quit, { g with d := true })
    | .SDL_SCANCODE_Q | .SDL_SCANCODE_G => (no_quit, { g with q := true })
    | .SDL_SCANCODE_E | .SDL_SCANCODE_R => (no_quit, { g with e := true })
    | .SDL_SCANCODE_Z =>
      let r := add_random_particle X g.vp_list g.rng
      (no_quit, { g with vp_list := r.1, rng := r.2 })
    | .SDL_SCANCODE_SPACE => (no_quit, { g with look_around := true, orbit_mode := false })
    | .SDL_SCANCODE_X => (no_quit, { g with orbit_mode := !g.orbit_mode })
    | .SDL_SCANCODE_P => (no_quit, { g with perspective := !g.perspective })
    | .SDL_SCANCODE_ESCAPE => (false, g)
    | .SDL_SCANCODE_OTHER => (no_quit, g)
  | .SDL_KEYUP scancode =>
    match scancode with
    | .SDL_SCANCODE_W | .SDL_SCANCODE_C => (no_quit, { g with w := false })
    | .SDL_SCANCODE_A | .SDL_SCANCODE_H => (no_quit, { g with a := false })
    | .SDL_SCANCODE_S | .SDL_SCANCODE_T => (no_quit, { g with s := false })
    | .SDL_SCANCODE_D | .SDL_SCANCODE_N => (no_quit, { g with d := false })
    | .SDL_SCANCODE_Q | .SDL_SCANCODE_G => (no_quit, { g with q := false })
    | .SDL_SCANCODE_E | .SDL_SCANCODE_R => (no_quit, { g with e := false })
    | .SDL_SCANCODE_SPACE => (no_quit, { g with look_around := false })
    | _ => (no_quit, g)
  | .SDL_MOUSEWHEEL wx wy =>
    let phi := g.phi + ((wrap_int32 ((if g.orbit_mode then 1 else -1) * wy) : Int) : F) * 0.04
    let theta := g.theta + ((wrap_int32 ((if g.orbit_mode then 1 else -1) * wx) : Int) : F) * 0.04
    (no_quit, { g with phi := phi, theta := theta })
  | .SDL_MOUSEBUTTONDOWN bx y =>
    (no_quit, { g with mouse_x := (bx : F), mouse_y := (y : F), orbit_mode := false,
                       look_around := true })
  | .SDL_MOUSEBUTTONUP bx y =>
    (no_quit, { g with mouse_x := (bx : F), mouse_y := (y : F), orbit_mode := false,
                       look_around := false })
  | .SDL_MOUSEMOTION mx my =>
    (no_quit, { g with mouse_x := (mx : F), mouse_y := (my : F) })
  | .SDL_WINDOWEVENT id data1 data2 =>
    if id = .SDL_WINDOWEVENT_SIZE_CHANGED ∨ id = .SDL_WINDOWEVENT_RESIZED then
      (no_quit, { g with screen_x := data1, screen_y := data2 })
    else (no_quit, g)
  | .SDL_QUIT => (false, g)
  | .SDL_OTHEREVENT => (no_quit, g)

/-- The event loop of `handle_controls`: `no_quit = true`, then every queued
event in order. -/
def drain_events (X : Externals F M R) (events : List SDL_Event) (g : ProgramState F M R) :
    Bool × ProgramState F M R :=
  events.foldl (handle_event X) (true, g)

/-- The vector `forward_normal_vector` built from `theta` and `phi`. -/
def forward_normal_vector (X : Externals F M R) (theta phi : F) : Vec3 F :=
  ⟨X.sinf phi * X.cosf theta, X.cosf phi, X.sinf phi * X.sinf theta⟩

/-- The function `glm::max(x, y)`, which is `(x < y) ? y : x`. -/
def glm_max (x y : F) : F := if x < y then y else x

/-- The function `glm::min(x, y)`, which is `(y < x) ? y : x`. -/
def glm_min (x y : F) : F := if y < x then y else x

/-- The function `glm::clamp(x, minVal, maxVal) = min(max(x, minVal), maxVal)`. -/
def clamp (x minVal maxVal : F) : F := glm_min (glm_max x minVal) maxVal

/-- The part of `handle_controls` after the event loop: the forward vector from
the current angles, the orbit or free-flight motion over `dt`, the view
matrix, the clamp of `phi`, and the projection matrix. -/
def integrate (X : Externals F M R) (dt : F) (g : ProgramState F M R) : ProgramState F M R :=
  let fwd := forward_normal_vector X g.theta g.phi
  let up : Vec3 F := ⟨0, 1, 0⟩
  let g1 : ProgramState F M R :=
    if g.orbit_mode then
      let theta := g.theta + dt * 2.0 * ((b2i g.a - b2i g.d : Int) : F)
      let phi := g.phi + dt * 1.75 * ((b2i g.e - b2i g.q : Int) : F)
      let radius := g.radius + dt * radius_speed * ((b2i g.s - b2i g.w : Int) : F)
      let center : Vec3 F := ⟨0, 0, 0⟩
      let eye := Vec3.sub center (Vec3.smul radius fwd)
      { g with theta := theta, phi := phi, radius := radius, eye := eye,
               view := X.lookAt eye center up }
    else
      let right_vector := X.normalize (X.cross fwd up)
      let up_vector := X.cross right_vector fwd
      let eye1 := Vec3.add g.eye
        (Vec3.muls (Vec3.smul (dt * radius_speed) right_vector) ((b2i g.d - b2i g.a : Int) : F))
      let eye2 := Vec3.add eye1
        (Vec3.muls (Vec3.smul (dt * radius_speed) fwd) ((b2i g.w - b2i g.s : Int) : F))
      let eye3 := Vec3.add eye2
        (Vec3.muls (Vec3.smul (dt * radius_speed) up_vector) ((b2i g.e - b2i g.q : Int) : F))
      let theta :=
        if g.look_around then
          g.theta + 6.0 * dt / (g.screen_x : F) * (g.mouse_x - (g.screen_x : F) * 0.5)
        else g.theta
      let phi :=
        if g.look_around then
          g.phi + 6.0 * dt / (g.screen_x : F) * (g.mouse_y - (g.screen_y : F) * 0.5)
        else g.phi
      { g with theta := theta, phi := phi, eye := eye3,
               view := X.lookAt eye3 (Vec3.add eye3 fwd) up }
  let phi := clamp g1.phi 0.01 3.13
  let screen_xy_ratio : F := (g1.screen_x : F) / (g1.screen_y : F)
  let projection :=
    if g1.perspective then
      X.perspective fovy_radians screen_xy_ratio near_plane far_plane
    else
      X.ortho (-g1.radius * screen_xy_ratio) (g1.radius * screen_xy_ratio)
        (-g1.radius) g1.radius near_plane far_plane
  { g1 with phi := phi, projection := projection }

/-- The function `handle_controls(dt, vp_list, rng)`: drain the event queue,
move the camera, and return `no_quit` with the new state. -/
def handle_controls (X : Externals F M R) (dt : F) (events : List SDL_Event)
    (g : ProgramState F M R) : Bool × ProgramState F M R :=
  let r := drain_events X events g
  (r.1, integrate X dt r.2)

/-- The state after a run of updates: `handle_controls` applied frame by frame
to `(dt, events)` pairs. -/
def run_updates (X : Externals F M R) :
    List (F × List SDL_Event) → ProgramState F M R → ProgramState F M R
  | [], g => g
  | frame :: frames, g => run_updates X frames (handle_controls X frame.1 frame.2 g).2

/-- The state after `n` updates in a row with `dt = 0` and an empty event
queue. -/
def idle_updates (X : Externals F M R) : Nat → ProgramState F M R → ProgramState F M R
  | 0, g => g
  | n + 1, g => idle_updates X n (handle_controls X 0 [] g).2

/-- The store after `n` calls of `add_random_particle` in a row. -/
def append_particles (X : Externals F M R) :
    Nat → List (visual_particle F) × R → List (visual_particle F) × R
  | 0, st => st
  | n + 1, st =>
    let r := append_particles X n st
    add_random_particle X r.1 r.2

/-- The `while (no_quit)` loop of `main` as far as the camera and the particle
store go: each frame reads the tick counter, derives
`dt = 0.001f * (current_control_handle_ticks - previous_control_handle_ticks)`
and calls `handle_controls`; the loop condition is the value it returned.  A
frame is the tick count read in it and the events queued for it;
`previous_control_handle_ticks` starts at 0. -/
def main_loop (X : Externals F M R) :
    List (Int × List SDL_Event) → Int → ProgramState F M R → ProgramState F M R
  | [], _, g => g
  | frame :: frames, previous_control_handle_ticks, g =>
    let current_control_handle_ticks := frame.1
    let dt : F := 0.001 * ((current_control_handle_ticks - previous_control_handle_ticks : Int) : F)
    let r := handle_controls X dt frame.2 g
    if r.1 then main_loop X frames current_control_handle_ticks r.2 else r.2

end Controls

/-! ## Memory layout of `visual_particle` -/

/-- A `float` as its 32-bit pattern. -/
abbrev Float32Bits : Type := Fin 4294967296

/-- The value of `sizeof(float)`. -/
def sizeof_float : Nat := 4

/-- The members of `struct visual_particle`. -/
inductive visual_particle_member
  | x | y | z | red | green | blue | radius
deriving DecidableEq, Repr

/-- The members in declaration order. -/
def visual_particle_members : List visual_particle_member :=
  [.x, .y, .z, .red, .green, .blue, .radius]

/-- The value of `offsetof(visual_particle, m)`: the members are `float`s, laid
out in declaration order, each at the next multiple of 4. -/
def offsetof (m : visual_particle_member) : Nat :=
  sizeof_float * visual_particle_members.indexOf m

/-- The value of `sizeof(visual_particle)`, which the `static_assert` in
`draw_particles` pins to 28. -/
def sizeof_visual_particle : Nat :=
  sizeof_float * visual_particle_members.length

/-- The four bytes of a `float` in memory, lowest address first
(little-endian). -/
def float_bytes (v : Float32Bits) : List Nat :=
  [v.val % 256, v.val / 256 % 256, v.val / 65536 % 256, v.val / 16777216 % 256]

/-- The bytes of one record in memory: the members in declaration order. -/
def visual_particle.bytes (p : visual_particle Float32Bits) : List Nat :=
  float_bytes p.x ++ float_bytes p.y ++ float_bytes p.z ++ float_bytes p.red ++
    float_bytes p.green ++ float_bytes p.blue ++ float_bytes p.radius

/-- The bytes at `vp_list.data()`: the records one after the other. -/
def vp_list_bytes (vp_list : List (visual_particle Float32Bits)) : List Nat :=
  (vp_list.map visual_particle.bytes).flatten

/-- The 32-bit pattern of the `float` read at byte offset `offset` of `mem`. -/
def read_float (mem : List Nat) (offset : Nat) : Option Nat :=
  match mem.drop offset with
  | b0 :: b1 :: b2 :: b3 :: _ => some (b0 + 256 * b1 + 65536 * b2 + 16777216 * b3)
  | _ => none

/-! ## The icosahedron mesh -/

/-- The constant `particle_vertex_count`. -/
def particle_vertex_count : Nat := 12

/-- The constant `particle_element_count`. -/
def particle_element_count : Nat := 60

/-- The file-scope constant `phi = 1.618034f` of the mesh. -/
def phi {F : Type} [FloatArith F] : F := 1.618034

/-- The constant `particle_scale = (float)(1.0 / hypot(1, phi))`, with libm's
`hypot` passed in. -/
def particle_scale {F : Type} [FloatArith F] (hypot : F → F → F) : F :=
  1.0 / hypot 1 phi

/-- The table `particle_vertices`: 12 vertices, 3 coordinates each. -/
def particle_vertices {F : Type} [FloatArith F] (hypot : F → F → F) : List F :=
  let ps : F := particle_scale hypot
  [ phi * ps, ps, 0,
    -phi * ps, ps, 0,
    -phi * ps, -ps, 0,
    phi * ps, -ps, 0,
    ps, 0, phi * ps,
    -ps, 0, phi * ps,
    -ps, 0, -phi * ps,
    ps, 0, -phi * ps,
    0, phi * ps, ps,
    0, -phi * ps, ps,
    0, -phi * ps, -ps,
    0, phi * ps, -ps ]

/-- The table `particle_elements` (`GLushort`): 20 triangles. -/
def particle_elements : List Nat :=
  [ 5, 4, 8,
    5, 8, 1,
    5, 1, 2,
    5, 2, 9,
    5, 9, 4,
    7, 6, 11,
    7, 11, 0,
    7, 0, 3,
    7, 3, 10,
    7, 10, 6,
    2, 1, 6,
    6, 1, 11,
    1, 8, 11,
    11, 8, 0,
    8, 4, 0,
    0, 4, 3,
    4, 9, 3,
    3, 9, 10,
    9, 2, 10,
    10, 2, 6 ]

/-- The index table cut into triangles, three entries at a time, as
`GL_TRIANGLES` reads it. -/
def triangles_of : List Nat → List (Nat × Nat × Nat)
  | a :: b :: c :: rest => (a, b, c) :: triangles_of rest
  | _ => []

/-- The three directed edges of a triangle, in winding order. -/
def triangle_edges (t : Nat × Nat × Nat) : List (Nat × Nat) :=
  [(t.1, t.2.1), (t.2.1, t.2.2), (t.2.2, t.1)]

/-- Whether a triangle has the vertex `v` as a corner. -/
def triangle_has_vertex (v : Nat) (t : Nat × Nat × Nat) : Bool :=
  t.1 == v || t.2.1 == v || t.2.2 == v

/-- The number of triangles of a list that have the directed edge `e`. -/
def triangles_with_edge (ts : List (Nat × Nat × Nat)) (e : Nat × Nat) : Nat :=
  (ts.filter (fun t => decide (e ∈ triangle_edges t))).length

/-- An undirected edge as the pair with the smaller end first. -/
def undirected (e : Nat × Nat) : Nat × Nat :=
  if e.1 ≤ e.2 then e else (e.2, e.1)

/-! ## The renderer: `make_program` and `draw_particles` as GL call sequences -/

/-- The `GLenum` constants the program passes. -/
inductive GLenum
  | GL_VERTEX_SHADER | GL_FRAGMENT_SHADER | GL_COMPILE_STATUS | GL_LINK_STATUS
  | GL_ARRAY_BUFFER | GL_ELEMENT_ARRAY_BUFFER | GL_STATIC_DRAW | GL_DYNAMIC_DRAW
  | GL_FLOAT | GL_TRIANGLES | GL_UNSIGNED_SHORT
deriving DecidableEq, Repr

/-- The shader source texts. -/
inductive ShaderText
  | particle_vs_source | particle_fs_source
deriving DecidableEq, Repr

/-- The uniform names looked up by `draw_particles`. -/
inductive UniformName
  | view_matrix | proj_matrix | uniform_position
deriving DecidableEq, Repr

/-- The client memory a `BufferData` call points at. -/
inductive BufferSource (F : Type)
  | particle_vertices
  | particle_elements
  | particle_ptr (vp_list : List (visual_particle F))

/-- One call through the `gl` function table, with its arguments. -/
inductive GLCall (F M : Type)
  | GetError
  | CreateProgram
  | CreateShader (type : GLenum)
  | ShaderSource (shader : Nat) (text : ShaderText)
  | CompileShader (shader : Nat)
  | GetShaderiv (shader : Nat) (pname : GLenum)
  | AttachShader (program shader : Nat)
  | GetShaderInfoLog (shader : Nat)
  | LinkProgram (program : Nat)
  | GetProgramiv (program : Nat) (pname : GLenum)
  | GetProgramInfoLog (program : Nat)
  | GetUniformLocation (program : Nat) (name : UniformName)
  | GenVertexArrays (n : Int)
  | GenBuffers (n : Int)
  | BindVertexArray (array : Nat)
  | BindBuffer (target : GLenum) (buffer : Nat)
  | BufferData (target : GLenum) (size : Int) (data : BufferSource F) (usage : GLenum)
  | VertexAttribPointer (index : Nat) (size : Int) (type : GLenum) (normalized : Bool)
      (stride : Int) (pointer : Nat)
  | VertexAttribDivisor (index divisor : Nat)
  | EnableVertexAttribArray (index : Nat)
  | UseProgram (program : Nat)
  | UniformMatrix4fv (location : Int) (count : Int) (transpose : Bool) (value : M)
  | Uniform3fv (location : Int) (count : Int) (value : Vec3 F)
  | DrawElementsInstanced (mode : GLenum) (count : Int) (type : GLenum) (indices : Nat)
      (instancecount : Int)

/-- Why `panic` was called. -/
inductive Panic
  | shader_compilation_error
  | shader_link_error
  | opengl_error (line : Nat) (code : Nat)
deriving DecidableEq, Repr

/-- What the GL backend answers during one call of `draw_particles`: the names
it hands out, the compile and link status, the uniform locations, and the
error codes `GetError` returns at the three places it is asked. -/
structure GLResponses where
  program_id : Nat
  vs_id : Nat
  fs_id : Nat
  vs_okay : Bool
  fs_okay : Bool
  link_okay : Bool
  make_program_error : Nat
  view_matrix_id : Int
  proj_matrix_id : Int
  uniform_position_id : Int
  vao : Nat
  vertex_buffer_id : Nat
  element_buffer_id : Nat
  instance_buffer_id : Nat
  setup_error : Nat
  frame_error : Nat

/-- The function-local statics of `draw_particles`. -/
structure RendererState where
  vao : Nat
  program_id : Nat
  vertex_buffer_id : Nat
  element_buffer_id : Nat
  instance_buffer_id : Nat
  view_matrix_id : Int
  proj_matrix_id : Int
  uniform_position_id : Int
deriving DecidableEq, Repr

/-- The statics before the first call: `vao = 0`, the others zero. -/
def RendererState.initial : RendererState := ⟨0, 0, 0, 0, 0, 0, 0, 0⟩

/-- The calls issued by one call of `draw_particles`, whether it ended in
`panic`, and the statics afterwards. -/
structure DrawResult (F M : Type) where
  calls : List (GLCall F M)
  panic : Option Panic
  statics : RendererState

/-- A `size_t` product (64-bit unsigned). -/
def size_t_mul (a b : Nat) : Nat := (a * b) % 2 ^ 64

/-- A `size_t` passed where a `GLsizeiptr` (64-bit signed) is expected. -/
def to_GLsizeiptr (n : Nat) : Int :=
  if n % 2 ^ 64 < 2 ^ 63 then ((n % 2 ^ 64 : Nat) : Int) else ((n % 2 ^ 64 : Nat) : Int) - 2 ^ 64

/-- A `size_t` passed where a `GLsizei` (32-bit signed) is expected. -/
def to_GLsizei (n : Nat) : Int :=
  if n % 2 ^ 32 < 2 ^ 31 then ((n % 2 ^ 32 : Nat) : Int) else ((n % 2 ^ 32 : Nat) : Int) - 2 ^ 32

/-- The attribute index `vertex_position_index`. -/
def vertex_position_index : Nat := 0

/-- The attribute index `instance_position_index`. -/
def instance_position_index : Nat := 1

/-- The attribute index `instance_color_index`. -/
def instance_color_index : Nat := 2

/-- The attribute index `instance_radius_index`. -/
def instance_radius_index : Nat := 3

/-- The function `make_program`: the calls it issues and either the program
name or the panic it ends in. -/
def make_program {F M : Type} (B : GLResponses) (vs_code fs_code : ShaderText) :
    List (GLCall F M) × Except Panic Nat :=
  let program_id := B.program_id
  let vs_id := B.vs_id
  let fs_id := B.fs_id
  let head : List (GLCall F M) :=
    [ .CreateProgram, .CreateShader .GL_VERTEX_SHADER, .CreateShader .GL_FRAGMENT_SHADER,
      .ShaderSource vs_id vs_code, .ShaderSource fs_id fs_code,
      .CompileShader vs_id, .CompileShader fs_id,
      .GetShaderiv vs_id .GL_COMPILE_STATUS ]
  if B.vs_okay then
    let c1 := head ++ [.AttachShader program_id vs_id, .GetShaderiv fs_id .GL_COMPILE_STATUS]
    if B.fs_okay then
      let c2 := c1 ++ [.AttachShader program_id fs_id, .LinkProgram program_id,
        .GetProgramiv program_id .GL_LINK_STATUS]
      if B.link_okay then
        let c3 := c2 ++ [.GetError]
        if B.make_program_error ≠ 0 then
          (c3, .error (.opengl_error 216 B.make_program_error))
        else (c3, .ok program_id)
      else (c2 ++ [.GetProgramInfoLog program_id], .error .shader_link_error)
    else (c1 ++ [.GetShaderInfoLog fs_id], .error .shader_compilation_error)
  else (head ++ [.GetShaderInfoLog vs_id], .error .shader_compilation_error)

/-- The `if (vao == 0)` block of `draw_particles`: program, uniform locations,
vertex array, the three buffers, the mesh uploads and the four attribute
pointers. -/
def draw_particles_setup {F M : Type} (B : GLResponses) :
    List (GLCall F M) × Except Panic RendererState :=
  let particle_vertex_stride := sizeof_visual_particle
  let mp : List (GLCall F M) × Except Panic Nat :=
    make_program B .particle_vs_source .particle_fs_source
  match mp.2 with
  | .error p => (mp.1, .error p)
  | .ok program_id =>
    let calls : List (GLCall F M) := mp.1 ++
      [ .GetUniformLocation program_id .view_matrix,
        .GetUniformLocation program_id .proj_matrix,
        .GetUniformLocation program_id .uniform_position,
        .GenVertexArrays 1,
        .BindVertexArray B.vao,
        .GenBuffers 1,
        .GenBuffers 1,
        .GenBuffers 1,
        .BindBuffer .GL_ARRAY_BUFFER B.vertex_buffer_id,
        .BufferData .GL_ARRAY_BUFFER
          (to_GLsizeiptr (sizeof_float * (3 * particle_vertex_count))) .particle_vertices
          .GL_STATIC_DRAW,
        .BindBuffer .GL_ELEMENT_ARRAY_BUFFER B.element_buffer_id,
        .BufferData .GL_ELEMENT_ARRAY_BUFFER
          (to_GLsizeiptr (2 * particle_element_count)) .particle_elements .GL_STATIC_DRAW,
        .VertexAttribPointer vertex_position_index 3 .GL_FLOAT false
          (to_GLsizei (3 * sizeof_float)) 0,
        .EnableVertexAttribArray vertex_position_index,
        .BindBuffer .GL_ARRAY_BUFFER B.instance_buffer_id,
        .VertexAttribPointer instance_position_index 3 .GL_FLOAT false
          (to_GLsizei particle_vertex_stride) (offsetof .x),
        .VertexAttribDivisor instance_position_index 1,
        .EnableVertexAttribArray instance_position_index,
        .VertexAttribPointer instance_color_index 3 .GL_FLOAT false
          (to_GLsizei particle_vertex_stride) (offsetof .red),
        .VertexAttribDivisor instance_color_index 1,
        .EnableVertexAttribArray instance_color_index,
        .VertexAttribPointer instance_radius_index 1 .GL_FLOAT false
          (to_GLsizei particle_vertex_stride) (offsetof .radius),
        .VertexAttribDivisor instance_radius_index 1,
        .EnableVertexAttribArray instance_radius_index,
        .GetError ]
    let statics : RendererState :=
      { vao := B.vao, program_id := program_id, vertex_buffer_id := B.vertex_buffer_id,
        element_buffer_id := B.element_buffer_id, instance_buffer_id := B.instance_buffer_id,
        view_matrix_id := B.view_matrix_id, proj_matrix_id := B.proj_matrix_id,
        uniform_position_id := B.uniform_position_id }
    if B.setup_error ≠ 0 then (calls, .error (.opengl_error 442 B.setup_error))
    else (calls, .ok statics)

/-- The per-frame part of `draw_particles` (from `gl.UseProgram` to the last
`PANIC_IF_GL_ERROR`): uniforms, the upload of the instance buffer, the
instanced draw. -/
def draw_particles_frame {F M : Type} (st : RendererState) (view projection : M)
    (vp_list : List (visual_particle F)) (position_offset : Vec3 F) : List (GLCall F M) :=
  let particle_ptr : BufferSource F := .particle_ptr vp_list
  let particle_count := vp_list.length
  let particle_vertex_stride := sizeof_visual_particle
  [ .UseProgram st.program_id,
    .UniformMatrix4fv st.view_matrix_id 1 false view,
    .UniformMatrix4fv st.proj_matrix_id 1 false projection,
    .Uniform3fv st.uniform_position_id 1 position_offset,
    .BindVertexArray st.vao,
    .BindBuffer .GL_ARRAY_BUFFER st.instance_buffer_id,
    .BufferData .GL_ARRAY_BUFFER
      (to_GLsizeiptr (size_t_mul particle_vertex_stride particle_count)) particle_ptr
      .GL_DYNAMIC_DRAW,
    .DrawElementsInstanced .GL_TRIANGLES (particle_element_count : Int) .GL_UNSIGNED_SHORT 0
      (to_GLsizei particle_count),
    .BindVertexArray 0,
    .GetError ]

/-- The function `draw_particles(gl, vp_list, position_offset)`, reading the
globals `view` and `projection`: the one-time setup when `vao == 0`, then the
per-frame part, then the error check. -/
def draw_particles {F M : Type} (B : GLResponses) (st : RendererState) (view projection : M)
    (vp_list : List (visual_particle F)) (position_offset : Vec3 F) : DrawResult F M :=
  let setup : List (GLCall F M) × Except Panic RendererState :=
    if st.vao = 0 then draw_particles_setup B else ([], .ok st)
  match setup.2 with
  | .error p => { calls := setup.1, panic := some p, statics := st }
  | .ok st1 =>
    { calls := setup.1 ++ draw_particles_frame st1 view projection vp_list position_offset,
      panic := if B.frame_error ≠ 0 then some (.opengl_error 472 B.frame_error) else none,
      statics := st1 }

/-- The `(target, size, source, usage)` of every `BufferData` call of a
sequence. -/
def buffer_uploads {F M : Type} (calls : List (GLCall F M)) :
    List (GLenum × Int × BufferSource F × GLenum) :=
  calls.filterMap fun c =>
    match c with
    | .BufferData target size data usage => some (target, size, data, usage)
    | _ => none

/-- The `(count, instancecount)` of every `DrawElementsInstanced` call of a
sequence. -/
def instanced_draws {F M : Type} (calls : List (GLCall F M)) : List (Int × Int) :=
  calls.filterMap fun c =>
    match c with
    | .DrawElementsInstanced _ count _ _ instancecount => some (count, instancecount)
    | _ => none

/-- The `(index, size, stride, offset)` of every `VertexAttribPointer` call of
a sequence. -/
def attribute_pointers {F M : Type} (calls : List (GLCall F M)) :
    List (Nat × Int × Int × Nat) :=
  calls.filterMap fun c =>
    match c with
    | .VertexAttribPointer index size _ _ stride pointer => some (index, size, stride, pointer)
    | _ => none

/-- A library in which a matrix is the list of the arguments it was built from
and the generator is a linear congruential one; sine and cosine are passed in,
and the glm vector helpers are the cross product and a stand-in for
`normalize`. -/
def externals_of {F : Type} [FloatArith F] (sinf cosf : F → F) :
    Externals F (List F) Nat where
  sinf := sinf
  cosf := cosf
  cross := fun u v =>
    ⟨u.y * v.z - v.y * u.z, u.z * v.x - v.z * u.x, u.x * v.y - v.x * u.y⟩
  normalize := fun v => v
  lookAt := fun eye center up =>
    [eye.x, eye.y, eye.z, center.x, center.y, center.z, up.x, up.y, up.z]
  perspective := fun fovy aspect zNear zFar => [fovy, aspect, zNear, zFar]
  ortho := fun left right bottom top zNear zFar => [left, right, bottom, top, zNear, zFar]
  rng_next := fun n =>
    ((1103515245 * n + 12345) % 4294967296, (1103515245 * n + 12345) % 4294967296)

/-- A concrete library for evaluating the definitions over `ℚ`; its sine and
cosine are rational stand-ins, not the libm functions. -/
def sample_externals : Externals ℚ (List ℚ) Nat :=
  externals_of (fun t => t) (fun t => 1 - t)

/-- The start state over `ℚ` with empty matrices, the eye at the origin and
generator seed 1. -/
def sample_initial : ProgramState ℚ (List ℚ) Nat :=
  initial_state [] [] ⟨0, 0, 0⟩ 1

/-- A concrete library for evaluating the definitions in single precision;
its sine and cosine are stand-ins, not the libm functions. -/
def sample_externals32 : Externals Binary32 (List Binary32) Nat :=
  externals_of (fun t => t) (fun t => t)

/-- The start state in single precision with empty matrices, the eye at the
origin and generator seed 1. -/
def sample_initial32 : ProgramState Binary32 (List Binary32) Nat :=
  initial_state [] [] ⟨0, 0, 0⟩ 1

/-- Frames of the main loop for one second of holding forward at about 60
frames a second: the tick counter reads 16, 32, ..., 992 and then 1000
milliseconds, and the key-down of W is queued in the first frame. -/
def frames_16ms : List (Int × List SDL_Event) :=
  (16, [SDL_Event.SDL_KEYDOWN SDL_Scancode.SDL_SCANCODE_W]) ::
    ((List.range 61).map fun k => (((k : Int) + 2) * 16, [])) ++ [(1000, [])]

/-- Backend answers for a run without errors. -/
def sample_responses : GLResponses where
  program_id := 3
  vs_id := 1
  fs_id := 2
  vs_okay := true
  fs_okay := true
  link_okay := true
  make_program_error := 0
  view_matrix_id := 0
  proj_matrix_id := 1
  uniform_position_id := 2
  vao := 1
  vertex_buffer_id := 1
  element_buffer_id := 2
  instance_buffer_id := 3
  setup_error := 0
  frame_error := 0

/-! # Theorems -/

open SDL_Event SDL_Scancode

section FloatLawsProofs

/-- Exact arithmetic satisfies the laws. -/
theorem exact_float_laws {F : Type} [LinearOrderedField F] : FloatLaws F where
  lt_irrefl := fun x => lt_irrefl x
  lt_asymm := fun _ _ h => lt_asymm h
  phi_range := by norm_num
  neg_mul := fun x y => neg_mul x y
  intCast_neg := fun n _ => Int.cast_neg n

/-- Rounding commutes with the sign. -/
theorem Binary32.round_neg (s : Bool) (num den : Nat) (e2 : Int) :
    Binary32.round (!s) num den e2 = Binary32.neg (Binary32.round s num den e2) := by
  unfold Binary32.round
  split
  · rfl
  · split <;> rfl

/-- Single precision satisfies the laws. -/
theorem binary32_float_laws : FloatLaws Binary32 where
  lt_irrefl := by
    intro x
    show ¬ Binary32.blt x x = true
    cases x <;> simp [Binary32.blt]
  lt_asymm := by
    intro x y
    show Binary32.blt x y = true → ¬ Binary32.blt y x = true
    cases x <;> cases y <;> simp [Binary32.blt] <;> omega
  phi_range := by decide
  neg_mul := by
    intro x y
    show Binary32.mul (Binary32.neg x) y = Binary32.neg (Binary32.mul x y)
    cases x with
    | nan => cases y <;> rfl
    | inf s1 =>
      cases y with
      | nan => rfl
      | inf s2 => show Binary32.inf _ = Binary32.inf _; cases s1 <;> cases s2 <;> rfl
      | fin s2 m2 e2 =>
        show (if m2 = 0 then Binary32.nan else Binary32.inf _)
          = Binary32.neg (if m2 = 0 then Binary32.nan else Binary32.inf _)
        split
        · rfl
        · cases s1 <;> cases s2 <;> rfl
    | fin s1 m1 e1 =>
      cases y with
      | nan => rfl
      | inf s2 =>
        show (if m1 = 0 then Binary32.nan else Binary32.inf _)
          = Binary32.neg (if m1 = 0 then Binary32.nan else Binary32.inf _)
        split
        · rfl
        · cases s1 <;> cases s2 <;> rfl
      | fin s2 m2 e2 =>
        show Binary32.round (xor (!s1) s2) (m1 * m2) 1 (e1 + e2)
          = Binary32.neg (Binary32.round (xor s1 s2) (m1 * m2) 1 (e1 + e2))
        rw [← Binary32.round_neg]
        cases s1 <;> cases s2 <;> rfl
  intCast_neg := by
    intro n hn
    show Binary32.ofInt (-n) = Binary32.neg (Binary32.ofInt n)
    unfold Binary32.ofInt
    rw [← Binary32.round_neg, Int.natAbs_neg]
    have hs : decide (-n < 0) = !decide (n < 0) := by
      by_cases h : n < 0
      · have h' : ¬ -n < 0 := by omega
        simp [h, h']
      · have h' : -n < 0 := by omega
        simp [h, h']
    rw [hs]

end FloatLawsProofs

set_option maxRecDepth 1000000 in
/-- The single-precision model at known values: the constants of the program
are the bit patterns a C++ compiler gives them (`1.5707f` is `0x3fc90cb3`,
`1.8f` is `0x3fe66666`, `0.04f` is `0x3d23d70a`, `0.001f` is `0x3a83126f`,
`0.01f` is `0x3c23d70a`, `3.13f` is `0x404851ec`); ties round to even;
results beyond the largest finite value are infinite and results below the
least subnormal are zero; and the special cases of zeros, infinities and NaN
are those of IEEE 754. -/
theorem binary32_examples :
    ((1.5707 : Binary32) = Binary32.fin false 13175987 (-23) ∧
      (1.8 : Binary32) = Binary32.fin false 15099494 (-23) ∧
      (0.04 : Binary32) = Binary32.fin false 10737418 (-28) ∧
      (0.001 : Binary32) = Binary32.fin false 8589935 (-33) ∧
      (0.01 : Binary32) = Binary32.fin false 10737418 (-30) ∧
      (3.13 : Binary32) = Binary32.fin false 13128172 (-22) ∧
      (1.75 : Binary32) = Binary32.fin false 14680064 (-23) ∧
      (0.1 : Binary32) = Binary32.fin false 13421773 (-27)) ∧
    (((16777217 : Int) : Binary32) = Binary32.fin false 8388608 1 ∧
      ((16777219 : Int) : Binary32) = Binary32.fin false 8388610 1 ∧
      ((2147483647 : Int) : Binary32) = Binary32.fin false 8388608 8 ∧
      ((-2147483648 : Int) : Binary32) = Binary32.fin true 8388608 8) ∧
    ((0.1 : Binary32) + 0.2 = Binary32.fin false 10066330 (-25) ∧
      (0.1 : Binary32) * 0.1 = Binary32.fin false 10737419 (-30) ∧
      (1 : Binary32) / 3 = Binary32.fin false 11184811 (-25)) ∧
    (Binary32.fin false 16777215 104 * 2 = Binary32.inf false ∧
      (3e38 : Binary32) + 3e38 = Binary32.inf false ∧
      (1e39 : Binary32) = Binary32.inf false ∧
      (1e-45 : Binary32) = Binary32.fin false 1 (-149) ∧
      Binary32.fin false 1 (-149) / 2 = Binary32.zero false ∧
      (1e-30 : Binary32) * 1e-10 = Binary32.fin false 71362 (-149)) ∧
    (Binary32.zero true + Binary32.zero false = Binary32.zero false ∧
      Binary32.zero true + Binary32.zero true = Binary32.zero true ∧
      (1 : Binary32) - 1 = Binary32.zero false ∧
      (1 : Binary32) / 0 = Binary32.inf false ∧
      (-1 : Binary32) / 0 = Binary32.inf true ∧
      (0 : Binary32) / 0 = Binary32.nan ∧
      Binary32.inf false * 0 = Binary32.nan ∧
      Binary32.inf false - Binary32.inf false = Binary32.nan ∧
      Binary32.inf false + 1 = Binary32.inf false ∧
      ¬ Binary32.nan < (1 : Binary32) ∧ ¬ (1 : Binary32) < Binary32.nan ∧
      ¬ Binary32.zero true < Binary32.zero false ∧
      Binary32.inf true < Binary32.fin true 16777215 104 ∧
      Binary32.fin false 16777215 104 < Binary32.inf false) := by
  decide

section ClampLemmas

/-- Whatever the arithmetic, the clamp of `phi` gives a value that is neither
less than the lower bound nor greater than the upper one. -/
theorem clamp_not_outside {F : Type} [FloatArith F] (L : FloatLaws F) (x : F) :
    ¬ clamp x 0.01 3.13 < 0.01 ∧ ¬ 3.13 < clamp x 0.01 3.13 := by
  have h1 := L.lt_irrefl (0.01 : F)
  have h2 := L.lt_irrefl (3.13 : F)
  have h3 := L.lt_asymm _ _ L.phi_range
  unfold clamp glm_min glm_max
  by_cases ha : x < 0.01
  · rw [if_pos ha, if_neg h3]
    exact ⟨h1, h3⟩
  · rw [if_neg ha]
    by_cases hb : (3.13 : F) < x
    · rw [if_pos hb]
      exact ⟨h3, h2⟩
    · rw [if_neg hb]
      exact ⟨ha, hb⟩

/-- In exact arithmetic the comparison-based clamp is `min (max x lo) hi`. -/
theorem clamp_eq_min_max {F : Type} [LinearOrderedField F] (x lo hi : F) :
    clamp x lo hi = min (max x lo) hi := by
  have hmax : glm_max x lo = max x lo := by
    unfold glm_max
    split_ifs with h
    · exact (max_eq_right (le_of_lt h)).symm
    · exact (max_eq_left (not_lt.mp h)).symm
  have hmin : ∀ y : F, glm_min y hi = min y hi := by
    intro y
    unfold glm_min
    split_ifs with h
    · exact (min_eq_right (le_of_lt h)).symm
    · exact (min_eq_left (not_lt.mp h)).symm
  unfold clamp
  rw [hmax, hmin]

/-- In exact arithmetic the result of the `phi` clamp lies in the closed
range. -/
theorem clamp_phi_bounds {F : Type} [LinearOrderedField F] (x : F) :
    (0.01 : F) ≤ clamp x 0.01 3.13 ∧ clamp x 0.01 3.13 ≤ 3.13 := by
  have h : (0.01 : F) ≤ 3.13 := by norm_num
  rw [clamp_eq_min_max]
  exact ⟨le_min (le_max_right _ _) h, min_le_right _ _⟩

/-- In exact arithmetic the clamp leaves a value of the closed range as it
is. -/
theorem clamp_of_mem {F : Type} [LinearOrderedField F] {x lo hi : F} (h1 : lo ≤ x)
    (h2 : x ≤ hi) : clamp x lo hi = x := by
  rw [clamp_eq_min_max, max_eq_left h1, min_eq_left h2]

end ClampLemmas

section ControlLemmas

variable {F M R : Type} [FloatArith F]

/-- The last assignment to `phi` in `handle_controls` is the clamp. -/
theorem integrate_phi_eq_clamp (X : Externals F M R) (dt : F) (g : ProgramState F M R) :
    ∃ x : F, (integrate X dt g).phi = clamp x 0.01 3.13 := ⟨_, rfl⟩

end ControlLemmas

/-- In exact arithmetic `phi` is within the closed range after the motion
step. -/
theorem integrate_phi_bounds {F M R : Type} [LinearOrderedField F] (X : Externals F M R) (dt : F)
    (g : ProgramState F M R) :
    (0.01 : F) ≤ (integrate X dt g).phi ∧ (integrate X dt g).phi ≤ 3.13 :=
  clamp_phi_bounds _

section StoreLemmas

variable {F M R : Type} [FloatArith F]

/-- The function `add_random_particle` ends with a `push_back`. -/
theorem add_random_particle_eq_append (X : Externals F M R) (vp_list : List (visual_particle F))
    (rng : R) :
    (add_random_particle X vp_list rng).1 =
      vp_list ++ [(add_random_particle X [] rng).1.getLast (by simp [add_random_particle])] := by
  simp [add_random_particle]

/-- The record and the generator state do not depend on the store. -/
theorem add_random_particle_rng (X : Externals F M R) (vp_list : List (visual_particle F))
    (rng : R) :
    (add_random_particle X vp_list rng).2 = (add_random_particle X [] rng).2 := rfl

/-- Each further append extends the store of the appends before it. -/
theorem append_particles_prefix (X : Externals F M R) (N j : Nat) (rng : R) :
    ∃ tail, (append_particles X (N + j) ([], rng)).1 = (append_particles X N ([], rng)).1 ++ tail := by
  induction j with
  | zero => exact ⟨[], by simp⟩
  | succ j ih =>
    obtain ⟨tail, h⟩ := ih
    refine ⟨tail ++ [(add_random_particle X [] (append_particles X (N + j) ([], rng)).2).1.getLast
      (by simp [add_random_particle])], ?_⟩
    rw [← Nat.add_assoc]
    show (add_random_particle X _ _).1 = _
    rw [add_random_particle_eq_append, h, List.append_assoc]

/-- After `N` appends to the empty store there are `N` records. -/
theorem append_particles_length (X : Externals F M R) (N : Nat) (rng : R) :
    (append_particles X N ([], rng)).1.length = N := by
  induction N with
  | zero => rfl
  | succ N ih =>
    show (add_random_particle X _ _).1.length = N + 1
    rw [add_random_particle_eq_append, List.length_append, ih]
    rfl

end StoreLemmas

/-- C2: `add_random_particle` returns the old list with exactly one record added
at the end (the length grows by one, the earlier records keep their values and
positions); from the empty store, `N` appends give `N` records, every later
store extends every earlier one, and the record at position `N` of any later
store is the one the `N+1`-th append added. -/
theorem add_random_particle_appends_one {F M R : Type} [FloatArith F]
    (X : Externals F M R) :
    (∀ (vp_list : List (visual_particle F)) (rng : R),
      (∃ vp, (add_random_particle X vp_list rng).1 = vp_list ++ [vp]) ∧
      (add_random_particle X vp_list rng).1.length = vp_list.length + 1 ∧
      (add_random_particle X vp_list rng).1.take vp_list.length = vp_list) ∧
    (∀ (N : Nat) (rng : R), (append_particles X N ([], rng)).1.length = N) ∧
    (∀ (N j : Nat) (rng : R),
      (append_particles X (N + j) ([], rng)).1.take N = (append_particles X N ([], rng)).1) ∧
    (∀ (N j : Nat) (rng : R),
      (append_particles X (N + 1 + j) ([], rng)).1[N]? =
        (append_particles X (N + 1) ([], rng)).1.getLast?) := by
  refine ⟨fun vp_list rng => ⟨⟨_, add_random_particle_eq_append X vp_list rng⟩, ?_, ?_⟩,
    append_particles_length X, ?_, ?_⟩
  · rw [add_random_particle_eq_append]; simp
  · rw [add_random_particle_eq_append]; simp
  · intro N j rng
    obtain ⟨tail, h⟩ := append_particles_prefix X N j rng
    rw [h, List.take_left' (append_particles_length X N rng)]
  · intro N j rng
    obtain ⟨tail, h⟩ := append_particles_prefix X (N + 1) j rng
    have hlen := append_particles_length X (N + 1) rng
    rw [h, List.getElem?_append_left (by omega), List.getLast?_eq_getElem?, hlen]
    rfl

section LayoutLemmas

/-- A record occupies 28 bytes. -/
theorem visual_particle_bytes_length (p : visual_particle Float32Bits) :
    p.bytes.length = 28 := by
  simp [visual_particle.bytes, float_bytes]

/-- Reading at the start of the four bytes of a `float` gives its pattern back. -/
theorem read_float_float_bytes (v : Float32Bits) (rest : List Nat) :
    read_float (float_bytes v ++ rest) 0 = some v.val := by
  have h := v.isLt
  simp only [read_float, float_bytes, List.drop_zero, List.cons_append, List.nil_append,
    Option.some.injEq]
  omega

/-- Reading past a block of bytes is reading in what follows it. -/
theorem read_float_append (pre mem : List Nat) (k : Nat) :
    read_float (pre ++ mem) (pre.length + k) = read_float mem k := by
  unfold read_float
  rw [List.drop_append]

/-- Reading at a member offset inside one record, whatever follows it. -/
theorem read_float_record (p : visual_particle Float32Bits) (rest : List Nat) :
    read_float (p.bytes ++ rest) (offsetof .x) = some p.x.val ∧
    read_float (p.bytes ++ rest) (offsetof .y) = some p.y.val ∧
    read_float (p.bytes ++ rest) (offsetof .z) = some p.z.val ∧
    read_float (p.bytes ++ rest) (offsetof .red) = some p.red.val ∧
    read_float (p.bytes ++ rest) (offsetof .green) = some p.green.val ∧
    read_float (p.bytes ++ rest) (offsetof .blue) = some p.blue.val ∧
    read_float (p.bytes ++ rest) (offsetof .radius) = some p.radius.val := by
  have hx := p.x.isLt
  have hy := p.y.isLt
  have hz := p.z.isLt
  have hr := p.red.isLt
  have hg := p.green.isLt
  have hb := p.blue.isLt
  have hrad := p.radius.isLt
  refine ⟨?_, ?_, ?_, ?_, ?_, ?_, ?_⟩ <;>
    simp only [read_float, visual_particle.bytes, float_bytes, offsetof, sizeof_float,
      visual_particle_members, List.indexOf, List.findIdx, List.findIdx.go, List.cons_append,
      List.nil_append, List.drop_succ_cons, List.drop_zero, Option.some.injEq, beq_iff_eq,
      reduceCtorEq, cond_false, cond_true, Nat.mul_zero, Nat.reduceMul, Nat.reduceAdd,
      decide_True, decide_False, BEq.beq] <;>
    omega

/-- The bytes of a vector whose first records are `pre`. -/
theorem vp_list_bytes_append (pre post : List (visual_particle Float32Bits)) :
    vp_list_bytes (pre ++ post) = vp_list_bytes pre ++ vp_list_bytes post := by
  simp [vp_list_bytes]

/-- A vector of `n` records occupies `28 * n` bytes. -/
theorem vp_list_bytes_length (vp_list : List (visual_particle Float32Bits)) :
    (vp_list_bytes vp_list).length = sizeof_visual_particle * vp_list.length := by
  induction vp_list with
  | nil => rfl
  | cons p ps ih =>
    have h : vp_list_bytes (p :: ps) = p.bytes ++ vp_list_bytes ps := by simp [vp_list_bytes]
    rw [h, List.length_append, ih, visual_particle_bytes_length]
    simp [sizeof_visual_particle, sizeof_float, visual_particle_members]
    omega

/-- The per-frame part of `draw_particles` issues no attribute pointer. -/
theorem draw_particles_frame_attribute_pointers {F M : Type} (st : RendererState)
    (view projection : M) (vp_list : List (visual_particle F)) (position_offset : Vec3 F) :
    attribute_pointers (draw_particles_frame st view projection vp_list position_offset) = [] :=
  rfl

/-- The attribute pointers of a sequence of calls followed by another. -/
theorem attribute_pointers_append {F M : Type} (c1 c2 : List (GLCall F M)) :
    attribute_pointers (c1 ++ c2) = attribute_pointers c1 ++ attribute_pointers c2 := by
  unfold attribute_pointers
  rw [List.filterMap_append]

/-- A first call of `draw_particles` (`vao == 0`) issues the attribute pointers
of the setup block, and no others. -/
theorem draw_particles_attribute_pointers_first {F M : Type} (B : GLResponses)
    (st : RendererState) (view projection : M) (vp_list : List (visual_particle F))
    (position_offset : Vec3 F) :
    attribute_pointers
        (draw_particles B { st with vao := 0 } view projection vp_list position_offset).calls
      = attribute_pointers
          (draw_particles_setup B : List (GLCall F M) × Except Panic RendererState).1 := by
  unfold draw_particles
  simp only [if_true]
  split
  · rfl
  · rw [attribute_pointers_append, draw_particles_frame_attribute_pointers, List.append_nil]

/-- A later call of `draw_particles` (`vao != 0`) issues the per-frame calls
only. -/
theorem draw_particles_calls_later {F M : Type} (B : GLResponses) (st : RendererState)
    (view projection : M) (vp_list : List (visual_particle F)) (position_offset : Vec3 F)
    (h : st.vao ≠ 0) :
    (draw_particles B st view projection vp_list position_offset).calls
      = draw_particles_frame st view projection vp_list position_offset := by
  simp [draw_particles, h]

end LayoutLemmas

/-- C3: a `visual_particle` is 7 unpadded 32-bit floats in the order x, y, z,
red, green, blue, radius, 28 bytes in all: for every 7 float patterns, the
record built from them, laid out as bytes and read back at byte offsets 0, 4,
8, 12, 16, 20, 24, gives the same 7 patterns; the same holds for record number
`i` of a vector at `28 * i` plus the offset; and the attribute pointers that
`draw_particles` issues, in the setup block of its first call (`vao == 0`) and
never again, give instance position, color and radius the offsets 0, 12, 24
and the stride 28. -/
theorem visual_particle_layout_roundtrip :
    sizeof_visual_particle = 28 ∧
    visual_particle_members.map offsetof = [0, 4, 8, 12, 16, 20, 24] ∧
    (∀ x y z red green blue radius : Float32Bits,
      (visual_particle.bytes ⟨x, y, z, red, green, blue, radius⟩).length = 28 ∧
      read_float (visual_particle.bytes ⟨x, y, z, red, green, blue, radius⟩) 0 = some x.val ∧
      read_float (visual_particle.bytes ⟨x, y, z, red, green, blue, radius⟩) 4 = some y.val ∧
      read_float (visual_particle.bytes ⟨x, y, z, red, green, blue, radius⟩) 8 = some z.val ∧
      read_float (visual_particle.bytes ⟨x, y, z, red, green, blue, radius⟩) 12 = some red.val ∧
      read_float (visual_particle.bytes ⟨x, y, z, red, green, blue, radius⟩) 16
        = some green.val ∧
      read_float (visual_particle.bytes ⟨x, y, z, red, green, blue, radius⟩) 20
        = some blue.val ∧
      read_float (visual_particle.bytes ⟨x, y, z, red, green, blue, radius⟩) 24
        = some radius.val) ∧
    (∀ (pre post : List (visual_particle Float32Bits)) (p : visual_particle Float32Bits),
      read_float (vp_list_bytes (pre ++ p :: post)) (28 * pre.length + 0) = some p.x.val ∧
      read_float (vp_list_bytes (pre ++ p :: post)) (28 * pre.length + 4) = some p.y.val ∧
      read_float (vp_list_bytes (pre ++ p :: post)) (28 * pre.length + 8) = some p.z.val ∧
      read_float (vp_list_bytes (pre ++ p :: post)) (28 * pre.length + 12) = some p.red.val ∧
      read_float (vp_list_bytes (pre ++ p :: post)) (28 * pre.length + 16) = some p.green.val ∧
      read_float (vp_list_bytes (pre ++ p :: post)) (28 * pre.length + 20) = some p.blue.val ∧
      read_float (vp_list_bytes (pre ++ p :: post)) (28 * pre.length + 24)
        = some p.radius.val) ∧
    (∀ (F M : Type) (B : GLResponses),
      attribute_pointers (draw_particles_setup B : List (GLCall F M) × Except Panic RendererState).1
        = if B.vs_okay && B.fs_okay && B.link_okay && decide (B.make_program_error = 0) then
            [(0, 3, 12, 0), (1, 3, 28, 0), (2, 3, 28, 12), (3, 1, 28, 24)]
          else []) ∧
    (∀ (F M : Type) (B : GLResponses) (st : RendererState) (view projection : M)
        (vp_list : List (visual_particle F)) (position_offset : Vec3 F),
      attribute_pointers
          (draw_particles B { st with vao := 0 } view projection vp_list position_offset).calls
        = if B.vs_okay && B.fs_okay && B.link_okay && decide (B.make_program_error = 0) then
            [(vertex_position_index, 3, 12, 0),
              (instance_position_index, 3, 28, offsetof visual_particle_member.x),
              (instance_color_index, 3, 28, offsetof visual_particle_member.red),
              (instance_radius_index, 1, 28, offsetof visual_particle_member.radius)]
          else []) ∧
    (∀ (F M : Type) (B : GLResponses) (st : RendererState) (view projection : M)
        (vp_list : List (visual_particle F)) (position_offset : Vec3 F),
      st.vao ≠ 0 →
      attribute_pointers
          (draw_particles B st view projection vp_list position_offset).calls = []) ∧
    (draw_particles sample_responses RendererState.initial ([] : List ℚ) []
        ([] : List (visual_particle ℚ)) ⟨0, 0, 0⟩).statics.vao = 1 ∧
    attribute_pointers
        (draw_particles sample_responses RendererState.initial ([] : List ℚ) []
          ([] : List (visual_particle ℚ)) ⟨0, 0, 0⟩).calls
      = [(0, 3, 12, 0), (1, 3, 28, 0), (2, 3, 28, 12), (3, 1, 28, 24)] := by
  have hoff : offsetof .x = 0 ∧ offsetof .y = 4 ∧ offsetof .z = 8 ∧ offsetof .red = 12 ∧
      offsetof .green = 16 ∧ offsetof .blue = 20 ∧ offsetof .radius = 24 := by decide
  obtain ⟨ox, oy, oz, ored, og, ob, orad⟩ := hoff
  have hsetup : ∀ (F M : Type) (B : GLResponses),
      attribute_pointers (draw_particles_setup B : List (GLCall F M) × Except Panic RendererState).1
        = if B.vs_okay && B.fs_okay && B.link_okay && decide (B.make_program_error = 0) then
            [(0, 3, 12, 0), (1, 3, 28, 0), (2, 3, 28, 12), (3, 1, 28, 24)]
          else [] := by
    intro F M B
    cases hv : B.vs_okay <;> cases hf : B.fs_okay <;> cases hl : B.link_okay <;>
      by_cases he : B.make_program_error = 0 <;> by_cases hs : B.setup_error = 0 <;>
      simp [draw_particles_setup, make_program, attribute_pointers, hv, hf, hl, he, hs,
        vertex_position_index, instance_position_index, instance_color_index,
        instance_radius_index, ox, ored, orad, to_GLsizei, sizeof_visual_particle, sizeof_float,
        visual_particle_members]
  refine ⟨by decide, by decide, ?_, ?_, hsetup, ?_, ?_, rfl, ?_⟩
  · intro x y z red green blue radius
    have h := read_float_record ⟨x, y, z, red, green, blue, radius⟩ []
    rw [ox, oy, oz, ored, og, ob, orad, List.append_nil] at h
    exact ⟨visual_particle_bytes_length _, h⟩
  · intro pre post p
    have hb : vp_list_bytes (pre ++ p :: post)
        = vp_list_bytes pre ++ (p.bytes ++ vp_list_bytes post) := by
      simp [vp_list_bytes]
    have hl : 28 * pre.length = (vp_list_bytes pre).length := by
      rw [vp_list_bytes_length]; rfl
    have h := read_float_record p (vp_list_bytes post)
    rw [ox, oy, oz, ored, og, ob, orad] at h
    rw [hb, hl]
    simp only [read_float_append]
    exact h
  · intro F M B st view projection vp_list position_offset
    rw [draw_particles_attribute_pointers_first, hsetup, ox, ored, orad]
    rfl
  · intro F M B st view projection vp_list position_offset h
    rw [draw_particles_calls_later B st view projection vp_list position_offset h]
    rfl
  · have h := draw_particles_attribute_pointers_first sample_responses RendererState.initial
      ([] : List ℚ) [] ([] : List (visual_particle ℚ)) ⟨0, 0, 0⟩
    have h0 : ({ RendererState.initial with vao := 0 } : RendererState)
        = RendererState.initial := rfl
    rw [h0] at h
    rw [h, hsetup]
    rfl

section OrbitLemmas

variable {F M R : Type} [FloatArith F]

/-- The event loop over an empty queue does nothing. -/
theorem handle_controls_nil (X : Externals F M R) (dt : F) (g : ProgramState F M R) :
    handle_controls X dt [] g = (true, integrate X dt g) := rfl

/-- The orbit branch of `handle_controls`, field by field. -/
theorem integrate_orbit (X : Externals F M R) (dt : F) (g : ProgramState F M R)
    (h : g.orbit_mode = true) :
    (integrate X dt g).theta = g.theta + dt * 2.0 * ((b2i g.a - b2i g.d : Int) : F) ∧
    (integrate X dt g).phi =
      clamp (g.phi + dt * 1.75 * ((b2i g.e - b2i g.q : Int) : F)) 0.01 3.13 ∧
    (integrate X dt g).radius =
      g.radius + dt * radius_speed * ((b2i g.s - b2i g.w : Int) : F) ∧
    (integrate X dt g).eye =
      Vec3.sub ⟨0, 0, 0⟩ (Vec3.smul (integrate X dt g).radius
        (forward_normal_vector X g.theta g.phi)) ∧
    (integrate X dt g).view = X.lookAt (integrate X dt g).eye ⟨0, 0, 0⟩ ⟨0, 1, 0⟩ := by
  simp [integrate, h]

/-- The motion step changes neither the mode nor the held keys. -/
theorem integrate_flags (X : Externals F M R) (dt : F) (g : ProgramState F M R) :
    (integrate X dt g).orbit_mode = g.orbit_mode ∧ (integrate X dt g).w = g.w ∧
    (integrate X dt g).a = g.a ∧ (integrate X dt g).s = g.s ∧ (integrate X dt g).d = g.d ∧
    (integrate X dt g).q = g.q ∧ (integrate X dt g).e = g.e := by
  unfold integrate
  split_ifs <;> simp

end OrbitLemmas

section OrbitLemmasExact

variable {F M R : Type} [LinearOrderedField F]

/-- The orbit branch when no motion key is held: only the clamp acts on the
angles and the radius, and the eye and the view come from the angles as they
were before the clamp. -/
theorem integrate_orbit_idle_keys (X : Externals F M R) (dt : F) (g : ProgramState F M R)
    (h : g.orbit_mode = true) (hw : g.w = false) (ha : g.a = false) (hs : g.s = false)
    (hd : g.d = false) (hq : g.q = false) (he : g.e = false) :
    (integrate X dt g).theta = g.theta ∧
    (integrate X dt g).phi = clamp g.phi 0.01 3.13 ∧
    (integrate X dt g).radius = g.radius ∧
    (integrate X dt g).eye =
      Vec3.sub ⟨0, 0, 0⟩ (Vec3.smul g.radius (forward_normal_vector X g.theta g.phi)) ∧
    (integrate X dt g).view =
      X.lookAt (Vec3.sub ⟨0, 0, 0⟩ (Vec3.smul g.radius (forward_normal_vector X g.theta g.phi)))
        ⟨0, 0, 0⟩ ⟨0, 1, 0⟩ := by
  simp [integrate, h, hw, ha, hs, hd, hq, he, b2i]

/-- In Orbit mode, with no motion key held and `phi` inside the clamp range, an
update over zero time with an empty queue only recomputes the eye and the
matrices. -/
theorem integrate_zero_idle (X : Externals F M R) (g : ProgramState F M R)
    (h : g.orbit_mode = true) (hw : g.w = false) (ha : g.a = false) (hs : g.s = false)
    (hd : g.d = false) (hq : g.q = false) (he : g.e = false)
    (h1 : (0.01 : F) ≤ g.phi) (h2 : g.phi ≤ 3.13) :
    integrate X 0 g =
      { g with
        eye := Vec3.sub ⟨0, 0, 0⟩ (Vec3.smul g.radius (forward_normal_vector X g.theta g.phi))
        view := X.lookAt
          (Vec3.sub ⟨0, 0, 0⟩ (Vec3.smul g.radius (forward_normal_vector X g.theta g.phi)))
          ⟨0, 0, 0⟩ ⟨0, 1, 0⟩
        projection :=
          if g.perspective then
            X.perspective fovy_radians ((g.screen_x : F) / (g.screen_y : F)) near_plane
              far_plane
          else
            X.ortho (-g.radius * ((g.screen_x : F) / (g.screen_y : F)))
              (g.radius * ((g.screen_x : F) / (g.screen_y : F))) (-g.radius) g.radius
              near_plane far_plane } := by
  have hc : clamp g.phi 0.01 3.13 = g.phi := clamp_of_mem h1 h2
  simp [integrate, h, hw, ha, hs, hd, hq, he, b2i, hc]

/-- After an update `phi` is inside the clamp range. -/
theorem handle_controls_phi_bounds (X : Externals F M R) (dt : F) (events : List SDL_Event)
    (g : ProgramState F M R) :
    (0.01 : F) ≤ (handle_controls X dt events g).2.phi ∧
      (handle_controls X dt events g).2.phi ≤ 3.13 :=
  integrate_phi_bounds X dt _

end OrbitLemmasExact

section OrbitIdle

variable {F M R : Type} [LinearOrderedField F]

/-- An idle update in Orbit mode is a fixed point of further idle updates. -/
theorem integrate_zero_idle_fixed (X : Externals F M R) (g : ProgramState F M R)
    (h : g.orbit_mode = true) (hw : g.w = false) (ha : g.a = false) (hs : g.s = false)
    (hd : g.d = false) (hq : g.q = false) (he : g.e = false)
    (h1 : (0.01 : F) ≤ g.phi) (h2 : g.phi ≤ 3.13) :
    integrate X 0 (integrate X 0 g) = integrate X 0 g := by
  have e1 := integrate_zero_idle X g h hw ha hs hd hq he h1 h2
  have e2 := integrate_zero_idle X (integrate X 0 g) (by rw [e1]; exact h) (by rw [e1]; exact hw)
    (by rw [e1]; exact ha) (by rw [e1]; exact hs) (by rw [e1]; exact hd) (by rw [e1]; exact hq)
    (by rw [e1]; exact he) (by rw [e1]; exact h1) (by rw [e1]; exact h2)
  rw [e2, e1]

/-- Any number of idle updates after the first change nothing. -/
theorem idle_updates_fixed (X : Externals F M R) (g : ProgramState F M R)
    (hfix : integrate X 0 (integrate X 0 g) = integrate X 0 g) (n : Nat) :
    idle_updates X (n + 1) g = integrate X 0 g := by
  induction n with
  | zero => rfl
  | succ n ih =>
    have hstep : idle_updates X (n + 1 + 1) g = idle_updates X (n + 1) (integrate X 0 g) := rfl
    rw [hstep]
    clear hstep
    have : ∀ m, idle_updates X m (integrate X 0 g) = integrate X 0 g := by
      intro m
      induction m with
      | zero => rfl
      | succ m ihm =>
        show idle_updates X m (integrate X 0 (integrate X 0 g)) = _
        rw [hfix, ihm]
    exact this _

end OrbitIdle

/-- C4 (the code at the failing input): over the reals with the true sine and
cosine, the start state updated with one mouse-wheel event `(0, -50)` and
`dt = 0` is in Orbit mode with no key held, yet the next update, with `dt = 0`
and an empty queue, produces another eye than that update did: the first
computed it from `phi = -0.2`, before the clamp, the second from `phi = 0.01`.
In single precision the same holds of `phi`: the first update computes its
forward vector from `phi = -(13421776 * 2 ^ (-26))` (about -0.2) and ends with
`phi = 0.01f`, from which the next update computes its own. -/
theorem orbit_idle_update_eye_differs :
    (handle_controls (externals_of Real.sin Real.cos) 0 [SDL_MOUSEWHEEL 0 (-50)]
        (initial_state [] [] ⟨0, 0, 0⟩ 1)).2.orbit_mode = true ∧
    (handle_controls (externals_of Real.sin Real.cos) 0 [SDL_MOUSEWHEEL 0 (-50)]
        (initial_state [] [] ⟨0, 0, 0⟩ 1)).2.w = false ∧
    (handle_controls (externals_of Real.sin Real.cos) 0 [SDL_MOUSEWHEEL 0 (-50)]
        (initial_state [] [] ⟨0, 0, 0⟩ 1)).2.a = false ∧
    (handle_controls (externals_of Real.sin Real.cos) 0 [SDL_MOUSEWHEEL 0 (-50)]
        (initial_state [] [] ⟨0, 0, 0⟩ 1)).2.s = false ∧
    (handle_controls (externals_of Real.sin Real.cos) 0 [SDL_MOUSEWHEEL 0 (-50)]
        (initial_state [] [] ⟨0, 0, 0⟩ 1)).2.d = false ∧
    (handle_controls (externals_of Real.sin Real.cos) 0 [SDL_MOUSEWHEEL 0 (-50)]
        (initial_state [] [] ⟨0, 0, 0⟩ 1)).2.q = false ∧
    (handle_controls (externals_of Real.sin Real.cos) 0 [SDL_MOUSEWHEEL 0 (-50)]
        (initial_state [] [] ⟨0, 0, 0⟩ 1)).2.e = false ∧
    (handle_controls (externals_of Real.sin Real.cos) 0 []
        (handle_controls (externals_of Real.sin Real.cos) 0 [SDL_MOUSEWHEEL 0 (-50)]
          (initial_state [] [] ⟨0, 0, 0⟩ 1)).2).2.eye ≠
      (handle_controls (externals_of Real.sin Real.cos) 0 [SDL_MOUSEWHEEL 0 (-50)]
        (initial_state [] [] ⟨0, 0, 0⟩ 1)).2.eye ∧
    (drain_events sample_externals32 [SDL_MOUSEWHEEL 0 (-50)] sample_initial32).2.phi
      = Binary32.fin true 13421776 (-26) ∧
    (handle_controls sample_externals32 0 [SDL_MOUSEWHEEL 0 (-50)] sample_initial32).2.phi
      = 0.01 ∧
    (drain_events sample_externals32 []
        (handle_controls sample_externals32 0 [SDL_MOUSEWHEEL 0 (-50)] sample_initial32).2).2.phi
      = 0.01 := by
  refine ⟨rfl, rfl, rfl, rfl, rfl, rfl, rfl, ?_, by decide, by decide, by decide⟩
  intro h
  have hy := congrArg Vec3.y h
  have hw : wrap_int32 (-50) = -50 := by decide
  simp [handle_controls, drain_events, handle_event, integrate, initial_state, externals_of,
    forward_normal_vector, Vec3.sub, Vec3.smul, clamp_eq_min_max, b2i, radius_speed, hw] at hy
  have h25 : ¬ ((25.0 : ℝ) = 0) := by norm_num
  have hy' := hy.resolve_right h25
  have hx : (1.8 + -(50 * 4e-2) : ℝ) = -(1 / 5) := by norm_num
  have hmax : max (-(1 / 5) : ℝ) 1e-2 = 1e-2 := max_eq_right (by norm_num)
  have hmin : min (1e-2 : ℝ) 3.13 = 1e-2 := min_eq_left (by norm_num)
  rw [hx, hmax, hmin, Real.cos_neg] at hy'
  have hpi := Real.pi_gt_three
  have hlt : Real.cos (1 / 5) < Real.cos 1e-2 :=
    Real.strictAntiOn_cos ⟨by norm_num, by linarith⟩ ⟨by norm_num, by linarith⟩ (by norm_num)
  exact absurd hy' (ne_of_gt hlt)

/-- Idle updates in Orbit mode, in exact arithmetic: for every camera state in
Orbit mode that an earlier update produced, with none of the six motion keys
held, an update with `dt = 0` and an empty event queue leaves `theta`, `phi`
and `radius` unchanged; it produces the same eye and view matrix as the update
before it whenever the `phi` that update held after its events, from which it
computed its forward vector, was within `[0.01, 3.13]`; and any number of such
updates in a row end in the state of the first of them, so in the same
`theta`, `phi`, `radius`, eye and view matrix. -/
theorem orbit_idle_update_fixed {F M R : Type} [LinearOrderedField F] (X : Externals F M R)
    (dt0 : F) (events0 : List SDL_Event) (g0 : ProgramState F M R)
    (h_orbit : (handle_controls X dt0 events0 g0).2.orbit_mode = true)
    (h_w : (handle_controls X dt0 events0 g0).2.w = false)
    (h_a : (handle_controls X dt0 events0 g0).2.a = false)
    (h_s : (handle_controls X dt0 events0 g0).2.s = false)
    (h_d : (handle_controls X dt0 events0 g0).2.d = false)
    (h_q : (handle_controls X dt0 events0 g0).2.q = false)
    (h_e : (handle_controls X dt0 events0 g0).2.e = false) :
    (handle_controls X 0 [] (handle_controls X dt0 events0 g0).2).2.theta
      = (handle_controls X dt0 events0 g0).2.theta ∧
    (handle_controls X 0 [] (handle_controls X dt0 events0 g0).2).2.phi
      = (handle_controls X dt0 events0 g0).2.phi ∧
    (handle_controls X 0 [] (handle_controls X dt0 events0 g0).2).2.radius
      = (handle_controls X dt0 events0 g0).2.radius ∧
    ((0.01 : F) ≤ (drain_events X events0 g0).2.phi ∧ (drain_events X events0 g0).2.phi ≤ 3.13 →
      (handle_controls X 0 [] (handle_controls X dt0 events0 g0).2).2.eye
        = (handle_controls X dt0 events0 g0).2.eye ∧
      (handle_controls X 0 [] (handle_controls X dt0 events0 g0).2).2.view
        = (handle_controls X dt0 events0 g0).2.view) ∧
    (∀ n : Nat,
      idle_updates X (n + 1) (handle_controls X dt0 events0 g0).2
        = (handle_controls X 0 [] (handle_controls X dt0 events0 g0).2).2) := by
  have hb := handle_controls_phi_bounds X dt0 events0 g0
  have hidle := integrate_zero_idle X (handle_controls X dt0 events0 g0).2 h_orbit h_w h_a h_s
    h_d h_q h_e hb.1 hb.2
  have hfix := integrate_zero_idle_fixed X (handle_controls X dt0 events0 g0).2 h_orbit h_w h_a
    h_s h_d h_q h_e hb.1 hb.2
  rw [handle_controls_nil]
  refine ⟨by rw [hidle], by rw [hidle], by rw [hidle], ?_, idle_updates_fixed X _ hfix⟩
  intro hphi
  have hfl := integrate_flags X dt0 (drain_events X events0 g0).2
  have hprev :
      (handle_controls X dt0 events0 g0).2 = integrate X dt0 (drain_events X events0 g0).2 := rfl
  rw [hprev] at h_orbit h_w h_a h_s h_d h_q h_e
  have hk := integrate_orbit_idle_keys X dt0 (drain_events X events0 g0).2
    (hfl.1.symm.trans h_orbit) (hfl.2.1.symm.trans h_w) (hfl.2.2.1.symm.trans h_a)
    (hfl.2.2.2.1.symm.trans h_s) (hfl.2.2.2.2.1.symm.trans h_d)
    (hfl.2.2.2.2.2.1.symm.trans h_q) (hfl.2.2.2.2.2.2.symm.trans h_e)
  have hk2 := integrate_orbit_idle_keys X 0 (integrate X dt0 (drain_events X events0 g0).2)
    h_orbit h_w h_a h_s h_d h_q h_e
  rw [hprev]
  rw [hk2.2.2.2.1, hk2.2.2.2.2, hk.2.2.2.1, hk.2.2.2.2, hk.1, hk.2.1, hk.2.2.1,
    clamp_of_mem hphi.1 hphi.2]
  exact ⟨rfl, rfl⟩

/-- Idle updates in Orbit mode at a concrete input: the start state updated
over 1 s with one mouse-wheel event `(1, 2)` is in Orbit mode with no key held
and `phi = 1.88`;
the idle update after it keeps the angles, the radius, the eye and the view,
and three idle updates end where the first does. -/
theorem orbit_idle_update_fixed_witness :
    ((handle_controls sample_externals 1 [SDL_MOUSEWHEEL 1 2] sample_initial).2.orbit_mode = true ∧
      (handle_controls sample_externals 1 [SDL_MOUSEWHEEL 1 2] sample_initial).2.w = false ∧
      (handle_controls sample_externals 1 [SDL_MOUSEWHEEL 1 2] sample_initial).2.a = false ∧
      (handle_controls sample_externals 1 [SDL_MOUSEWHEEL 1 2] sample_initial).2.s = false ∧
      (handle_controls sample_externals 1 [SDL_MOUSEWHEEL 1 2] sample_initial).2.d = false ∧
      (handle_controls sample_externals 1 [SDL_MOUSEWHEEL 1 2] sample_initial).2.q = false ∧
      (handle_controls sample_externals 1 [SDL_MOUSEWHEEL 1 2] sample_initial).2.e = false) ∧
    ((0.01 : ℚ) ≤ (drain_events sample_externals [SDL_MOUSEWHEEL 1 2] sample_initial).2.phi ∧
      (drain_events sample_externals [SDL_MOUSEWHEEL 1 2] sample_initial).2.phi ≤ 3.13) ∧
    (handle_controls sample_externals 0 []
        (handle_controls sample_externals 1 [SDL_MOUSEWHEEL 1 2] sample_initial).2).2.theta
      = (handle_controls sample_externals 1 [SDL_MOUSEWHEEL 1 2] sample_initial).2.theta ∧
    (handle_controls sample_externals 0 []
        (handle_controls sample_externals 1 [SDL_MOUSEWHEEL 1 2] sample_initial).2).2.phi
      = (handle_controls sample_externals 1 [SDL_MOUSEWHEEL 1 2] sample_initial).2.phi ∧
    (handle_controls sample_externals 0 []
        (handle_controls sample_externals 1 [SDL_MOUSEWHEEL 1 2] sample_initial).2).2.radius
      = (handle_controls sample_externals 1 [SDL_MOUSEWHEEL 1 2] sample_initial).2.radius ∧
    (handle_controls sample_externals 0 []
        (handle_controls sample_externals 1 [SDL_MOUSEWHEEL 1 2] sample_initial).2).2.eye
      = (handle_controls sample_externals 1 [SDL_MOUSEWHEEL 1 2] sample_initial).2.eye ∧
    (handle_controls sample_externals 0 []
        (handle_controls sample_externals 1 [SDL_MOUSEWHEEL 1 2] sample_initial).2).2.view
      = (handle_controls sample_externals 1 [SDL_MOUSEWHEEL 1 2] sample_initial).2.view ∧
    idle_updates sample_externals 3
        (handle_controls sample_externals 1 [SDL_MOUSEWHEEL 1 2] sample_initial).2
      = (handle_controls sample_externals 0 []
        (handle_controls sample_externals 1 [SDL_MOUSEWHEEL 1 2] sample_initial).2).2 := by
  have hphi : (0.01 : ℚ) ≤ (drain_events sample_externals [SDL_MOUSEWHEEL 1 2] sample_initial).2.phi ∧
      (drain_events sample_externals [SDL_MOUSEWHEEL 1 2] sample_initial).2.phi ≤ 3.13 := by
    have hw : wrap_int32 2 = 2 := by decide
    simp [drain_events, handle_event, sample_initial, initial_state, hw]
    norm_num
  have h := orbit_idle_update_fixed sample_externals 1 [SDL_MOUSEWHEEL 1 2] sample_initial
    rfl rfl rfl rfl rfl rfl rfl
  exact ⟨⟨rfl, rfl, rfl, rfl, rfl, rfl, rfl⟩, hphi, h.1, h.2.1, h.2.2.1, (h.2.2.2.1 hphi).1,
    (h.2.2.2.1 hphi).2, h.2.2.2.2 2⟩

/-- C5 (the code at the failing input): the key-up of the look key clears the
look flag and changes nothing else, so it keeps the mode; a mouse-button-up
event also clears the look flag but sets `orbit_mode = false` whatever the mode
was.  From the start state, after a mouse-button-down and a key-down of the
orbit toggle the mode is Orbit, and the mouse-button-up after them leaves it
FreeFlight. -/
theorem look_release_effect_on_mode {F M R : Type} [FloatArith F]
    (X : Externals F M R) :
    (∀ (no_quit : Bool) (g : ProgramState F M R),
      handle_event X (no_quit, g) (SDL_KEYUP SDL_SCANCODE_SPACE)
        = (no_quit, { g with look_around := false })) ∧
    (∀ (no_quit : Bool) (g : ProgramState F M R) (x y : Int),
      (handle_event X (no_quit, g) (SDL_MOUSEBUTTONUP x y)).2.look_around = false ∧
      (handle_event X (no_quit, g) (SDL_MOUSEBUTTONUP x y)).2.orbit_mode = false) ∧
    (drain_events sample_externals [SDL_MOUSEBUTTONDOWN 5 5, SDL_KEYDOWN SDL_SCANCODE_X]
        sample_initial).2.orbit_mode = true ∧
    (drain_events sample_externals
        [SDL_MOUSEBUTTONDOWN 5 5, SDL_KEYDOWN SDL_SCANCODE_X, SDL_MOUSEBUTTONUP 5 5]
        sample_initial).2.orbit_mode = false :=
  ⟨fun _ _ => rfl, fun _ _ _ _ => ⟨rfl, rfl⟩, rfl, rfl⟩

/-- C6: the mode is the boolean `orbit_mode`, and the key-down of the orbit
toggle flips it whatever the state: the mode after it is the negation of the
mode before it, so it differs from it; two states with the same mode get the
same new mode whatever their other fields are; no other field of the state and
not the quit flag changes; two toggles in a row restore the state. -/
theorem orbit_toggle_flips_mode {F M R : Type} [FloatArith F] (X : Externals F M R) :
    (∀ (no_quit : Bool) (g : ProgramState F M R),
      handle_event X (no_quit, g) (SDL_KEYDOWN SDL_SCANCODE_X)
        = (no_quit, { g with orbit_mode := !g.orbit_mode })) ∧
    (∀ (no_quit : Bool) (g : ProgramState F M R),
      (handle_event X (no_quit, g) (SDL_KEYDOWN SDL_SCANCODE_X)).2.orbit_mode ≠ g.orbit_mode) ∧
    (∀ (no_quit no_quit' : Bool) (g g' : ProgramState F M R),
      (handle_event X (no_quit', { g' with orbit_mode := g.orbit_mode })
          (SDL_KEYDOWN SDL_SCANCODE_X)).2.orbit_mode
        = (handle_event X (no_quit, g) (SDL_KEYDOWN SDL_SCANCODE_X)).2.orbit_mode) ∧
    (∀ (no_quit : Bool) (g : ProgramState F M R),
      handle_event X (handle_event X (no_quit, g) (SDL_KEYDOWN SDL_SCANCODE_X))
        (SDL_KEYDOWN SDL_SCANCODE_X) = (no_quit, g)) ∧
    (∀ (g : ProgramState F M R),
      drain_events X [SDL_KEYDOWN SDL_SCANCODE_X, SDL_KEYDOWN SDL_SCANCODE_X] g = (true, g)) := by
  refine ⟨fun _ _ => rfl, ?_, fun _ _ _ _ => rfl, ?_, ?_⟩
  · intro no_quit g
    show (!g.orbit_mode) ≠ g.orbit_mode
    cases g.orbit_mode <;> simp
  · intro no_quit g
    show (no_quit, { g with orbit_mode := !(!g.orbit_mode) }) = (no_quit, g)
    rw [Bool.not_not]
  · intro g
    show (true, { g with orbit_mode := !(!g.orbit_mode) }) = (true, g)
    rw [Bool.not_not]

section RadiusLemmas

variable {F M R : Type} [FloatArith F]

/-- No event writes `radius`. -/
theorem handle_event_radius (X : Externals F M R) (st : Bool × ProgramState F M R)
    (event : SDL_Event) : (handle_event X st event).2.radius = st.2.radius := by
  cases event with
  | SDL_KEYDOWN sc => cases sc <;> rfl
  | SDL_KEYUP sc => cases sc <;> rfl
  | SDL_WINDOWEVENT id d1 d2 => cases id <;> rfl
  | _ => rfl

/-- The event loop leaves `radius` as it was. -/
theorem drain_events_radius (X : Externals F M R) (events : List SDL_Event)
    (g : ProgramState F M R) : (drain_events X events g).2.radius = g.radius := by
  have key : ∀ (evs : List SDL_Event) (st : Bool × ProgramState F M R),
      (evs.foldl (handle_event X) st).2.radius = st.2.radius := by
    intro evs
    induction evs with
    | nil => intro st; rfl
    | cons ev evs ih => intro st; rw [List.foldl_cons, ih, handle_event_radius]
  exact key events (true, g)

/-- One orbit update with forward held and back not held: the operations the
code performs on `radius`. -/
theorem integrate_orbit_forward_ops (X : Externals F M R) (dt : F) (g : ProgramState F M R)
    (h : g.orbit_mode = true) (hw : g.w = true) (hs : g.s = false) :
    (integrate X dt g).radius = g.radius + dt * radius_speed * ((-1 : Int) : F) := by
  rw [(integrate_orbit X dt g h).2.2.1, hw, hs]
  rfl

/-- One orbit update with neither left nor right held: the operations the code
performs on `theta`. -/
theorem integrate_orbit_no_turn_ops (X : Externals F M R) (dt : F) (g : ProgramState F M R)
    (h : g.orbit_mode = true) (ha : g.a = false) (hd : g.d = false) :
    (integrate X dt g).theta = g.theta + dt * 2.0 * ((0 : Int) : F) := by
  rw [(integrate_orbit X dt g h).1, ha, hd]
  rfl

end RadiusLemmas

/-- In single precision a finite value times `float(0)` is a zero. -/
theorem binary32_mul_int_zero (y : Binary32) (h : Binary32.is_finite y = true) :
    Binary32.is_zero (y * ((0 : Int) : Binary32)) = true := by
  cases y with
  | nan => simp [Binary32.is_finite] at h
  | inf s => simp [Binary32.is_finite] at h
  | fin s m e => rfl

/-- In single precision a zero added to a value that is not a zero leaves the
value as it is. -/
theorem binary32_add_zero (x z : Binary32) (hx : Binary32.is_zero x = false)
    (hz : Binary32.is_zero z = true) : x + z = x := by
  cases z with
  | nan => simp [Binary32.is_zero] at hz
  | inf s => simp [Binary32.is_zero] at hz
  | fin sz mz ez =>
    have hmz : mz = 0 := by simpa [Binary32.is_zero] using hz
    subst hmz
    cases x with
    | nan => rfl
    | inf s => rfl
    | fin sx mx ex =>
      have hmx : mx ≠ 0 := by simpa [Binary32.is_zero] using hx
      show Binary32.add (Binary32.fin sx mx ex) (Binary32.fin sz 0 ez) = _
      simp [Binary32.add, hmx]

section RadiusLemmasExact

variable {F M R : Type} [LinearOrderedField F]

/-- One orbit update with forward held and back not held, in exact
arithmetic. -/
theorem integrate_orbit_forward (X : Externals F M R) (dt : F) (g : ProgramState F M R)
    (h : g.orbit_mode = true) (hw : g.w = true) (hs : g.s = false) :
    (integrate X dt g).radius = g.radius - 10 * dt := by
  rw [(integrate_orbit X dt g h).2.2.1, hw, hs]
  simp only [b2i, radius_speed]
  norm_num
  ring

/-- Updates with an empty queue, in Orbit mode with forward held, in exact
arithmetic: the radius falls by ten times the total time. -/
theorem run_updates_hold_forward (X : Externals F M R) (dts : List F) :
    ∀ g : ProgramState F M R, g.orbit_mode = true → g.w = true → g.s = false →
      (run_updates X (dts.map fun dt => (dt, [])) g).radius = g.radius - 10 * dts.sum := by
  induction dts with
  | nil => intro g _ _ _; simp [run_updates]
  | cons dt dts ih =>
    intro g h hw hs
    have hfl := integrate_flags X dt g
    show (run_updates X (dts.map fun dt => (dt, [])) (integrate X dt g)).radius = _
    rw [ih _ (hfl.1.trans h) (hfl.2.1.trans hw) (hfl.2.2.2.1.trans hs),
      integrate_orbit_forward X dt g h hw hs, List.sum_cons]
    ring

/-- The forward scenario in exact arithmetic: from the start state, W pressed
in the first update and held over the following ones, the radius is 25 less
ten times the total time. -/
theorem run_updates_forward_scenario (X : Externals F M R) (view0 projection0 : M)
    (eye0 : Vec3 F) (rng0 : R) (dt1 : F) (dts : List F) :
    (run_updates X ((dt1, [SDL_KEYDOWN SDL_SCANCODE_W]) :: dts.map fun t => (t, []))
      (initial_state view0 projection0 eye0 rng0)).radius = 25 - 10 * (dt1 + dts.sum) := by
  show (run_updates X (dts.map fun t => (t, []))
    (integrate X dt1 (drain_events X [SDL_KEYDOWN SDL_SCANCODE_W]
      (initial_state view0 projection0 eye0 rng0)).2)).radius = _
  have hfl := integrate_flags X dt1 (drain_events X [SDL_KEYDOWN SDL_SCANCODE_W]
      (initial_state view0 projection0 eye0 rng0)).2
  rw [run_updates_hold_forward X dts _ (hfl.1.trans rfl) (hfl.2.1.trans rfl)
    (hfl.2.2.2.1.trans rfl), integrate_orbit_forward X dt1 _ rfl rfl rfl]
  show (25.0 : F) - 10 * dt1 - 10 * dts.sum = _
  norm_num
  ring

end RadiusLemmasExact

set_option maxRecDepth 1000000 in
/-- C7 (as stated, refuted): in single precision the radius is not lowered by
exactly `10 * dt`.  From the start state (Orbit, `radius = 25`), one update of
16 ms (`dt = 0.001f * 16`) whose queue holds the key-down of W, so that forward
is held and back is not, ends with `radius = 13023314 * 2 ^ (-19)`
(24.84000015...), which is not `25 - 10 * dt`; and holding forward over the 63
frames of `frames_16ms`, whose tick counter ends at 1000 ms, ends with
`radius = 15728650 * 2 ^ (-20)` (15.0000095...), not 15. -/
theorem orbit_forward_radius_rounds :
    ((drain_events sample_externals32 [SDL_KEYDOWN SDL_SCANCODE_W] sample_initial32).2.orbit_mode
        = true ∧
      (drain_events sample_externals32 [SDL_KEYDOWN SDL_SCANCODE_W] sample_initial32).2.w
        = true ∧
      (drain_events sample_externals32 [SDL_KEYDOWN SDL_SCANCODE_W] sample_initial32).2.s
        = false) ∧
    sample_initial32.radius = ((25 : Int) : Binary32) ∧
    (handle_controls sample_externals32 (0.001 * ((16 : Int) : Binary32))
        [SDL_KEYDOWN SDL_SCANCODE_W] sample_initial32).2.radius
      = Binary32.fin false 13023314 (-19) ∧
    Binary32.scaled (handle_controls sample_externals32 (0.001 * ((16 : Int) : Binary32))
        [SDL_KEYDOWN SDL_SCANCODE_W] sample_initial32).2.radius
      ≠ Binary32.scaled sample_initial32.radius
          - 10 * Binary32.scaled (0.001 * ((16 : Int) : Binary32)) ∧
    (frames_16ms.length = 63 ∧ (frames_16ms.map Prod.fst).getLast? = some 1000) ∧
    (main_loop sample_externals32 frames_16ms 0 sample_initial32).w = true ∧
    (main_loop sample_externals32 frames_16ms 0 sample_initial32).radius
      = Binary32.fin false 15728650 (-20) ∧
    (main_loop sample_externals32 frames_16ms 0 sample_initial32).radius
      ≠ ((15 : Int) : Binary32) := by
  decide

/-- C7 (amended): when, after the events of an update, the mode is Orbit,
forward is held and back is not, the update sets `radius` to
`radius + dt * radius_speed * float(-1)`, each operation being one of `float`
(`radius_speed = 10`), and nothing clamps the result; when neither left nor
right is held it sets `theta` to `theta + dt * 2.0f * float(0)`.  In single
precision this leaves `theta` as it is whenever `dt * 2.0f` is finite and
`theta` is not a zero; a single update with `dt = 1` from the start state
(`theta = 1.5707f`, `phi = 1.8f`, `radius = 25`) gives `radius = 15` exactly,
and so do two updates with `dt = 0.5`; `dt = 3` gives `radius = -5`; an
infinite `dt` gives `radius = -inf` and `theta = NaN`.  In exact arithmetic
the update lowers `radius` by exactly `10 * dt` and leaves `theta` unchanged,
and holding forward from the start state over updates of total time 1 gives
`radius = 15`. -/
theorem orbit_forward_lowers_radius :
    (∀ {F M R : Type} [FloatArith F] (X : Externals F M R) (dt : F) (events : List SDL_Event)
        (g : ProgramState F M R),
        (drain_events X events g).2.orbit_mode = true →
        ((drain_events X events g).2.w = true → (drain_events X events g).2.s = false →
          (handle_controls X dt events g).2.radius
            = g.radius + dt * radius_speed * ((-1 : Int) : F)) ∧
        ((drain_events X events g).2.a = false → (drain_events X events g).2.d = false →
          (handle_controls X dt events g).2.theta
            = (drain_events X events g).2.theta + dt * 2.0 * ((0 : Int) : F))) ∧
    (∀ {M R : Type} (X : Externals Binary32 M R) (dt : Binary32) (events : List SDL_Event)
        (g : ProgramState Binary32 M R),
        (drain_events X events g).2.orbit_mode = true →
        (drain_events X events g).2.a = false → (drain_events X events g).2.d = false →
        Binary32.is_finite (dt * 2.0) = true →
        Binary32.is_zero (drain_events X events g).2.theta = false →
        (handle_controls X dt events g).2.theta = (drain_events X events g).2.theta) ∧
    ((radius_speed : Binary32) = ((10 : Int) : Binary32) ∧
      sample_initial32.theta = 1.5707 ∧ sample_initial32.phi = 1.8 ∧
      sample_initial32.radius = ((25 : Int) : Binary32) ∧
      (handle_controls sample_externals32 1 [SDL_KEYDOWN SDL_SCANCODE_W]
        sample_initial32).2.radius = ((15 : Int) : Binary32) ∧
      (handle_controls sample_externals32 1 [SDL_KEYDOWN SDL_SCANCODE_W]
        sample_initial32).2.theta = 1.5707 ∧
      (run_updates sample_externals32 [(0.5, [SDL_KEYDOWN SDL_SCANCODE_W]), (0.5, [])]
        sample_initial32).radius = ((15 : Int) : Binary32) ∧
      (handle_controls sample_externals32 3 [SDL_KEYDOWN SDL_SCANCODE_W]
        sample_initial32).2.radius = ((-5 : Int) : Binary32) ∧
      (handle_controls sample_externals32 (Binary32.inf false) [SDL_KEYDOWN SDL_SCANCODE_W]
        sample_initial32).2.radius = Binary32.inf true ∧
      (handle_controls sample_externals32 (Binary32.inf false) [SDL_KEYDOWN SDL_SCANCODE_W]
        sample_initial32).2.theta = Binary32.nan) ∧
    (∀ {F M R : Type} [LinearOrderedField F] (X : Externals F M R) (dt : F)
        (events : List SDL_Event) (g : ProgramState F M R),
        (drain_events X events g).2.orbit_mode = true →
        ((drain_events X events g).2.w = true → (drain_events X events g).2.s = false →
          (handle_controls X dt events g).2.radius = g.radius - 10 * dt) ∧
        ((drain_events X events g).2.a = false → (drain_events X events g).2.d = false →
          (handle_controls X dt events g).2.theta = (drain_events X events g).2.theta)) ∧
    (∀ {F M R : Type} [LinearOrderedField F] (X : Externals F M R) (view0 projection0 : M)
        (eye0 : Vec3 F) (rng0 : R) (dt1 : F) (dts : List F),
        dt1 + dts.sum = 1 →
        (run_updates X ((dt1, [SDL_KEYDOWN SDL_SCANCODE_W]) :: dts.map fun t => (t, []))
          (initial_state view0 projection0 eye0 rng0)).radius = 15) := by
  refine ⟨?_, ?_, by decide, ?_, ?_⟩
  · intro F M R _ X dt events g h
    refine ⟨fun hw hs => ?_, fun ha hd => ?_⟩
    · show (integrate X dt (drain_events X events g).2).radius = _
      rw [integrate_orbit_forward_ops X dt _ h hw hs, drain_events_radius]
    · exact integrate_orbit_no_turn_ops X dt _ h ha hd
  · intro M R X dt events g h ha hd hfin hz
    show (integrate X dt (drain_events X events g).2).theta = _
    rw [integrate_orbit_no_turn_ops X dt _ h ha hd]
    exact binary32_add_zero _ _ hz (binary32_mul_int_zero _ hfin)
  · intro F M R _ X dt events g h
    refine ⟨fun hw hs => ?_, fun ha hd => ?_⟩
    · show (integrate X dt (drain_events X events g).2).radius = _
      rw [integrate_orbit_forward X dt _ h hw hs, drain_events_radius]
    · show (integrate X dt (drain_events X events g).2).theta = _
      rw [(integrate_orbit X dt _ h).1, ha, hd]
      simp [b2i]
  · intro F M R _ X view0 projection0 eye0 rng0 dt1 dts hsum
    rw [run_updates_forward_scenario, hsum]
    norm_num

/-- C7 (amended), at a concrete input in single precision: from the start
state, an update of 16 ms whose queue holds the key-down of W sets `radius` to
the `float` value of `25 + dt * 10 * float(-1)`, which is
`13023314 * 2 ^ (-19)`. -/
theorem orbit_forward_lowers_radius_witness :
    (handle_controls sample_externals32 (0.001 * ((16 : Int) : Binary32))
        [SDL_KEYDOWN SDL_SCANCODE_W] sample_initial32).2.radius
      = sample_initial32.radius
          + 0.001 * ((16 : Int) : Binary32) * radius_speed * ((-1 : Int) : Binary32) ∧
    sample_initial32.radius
        + 0.001 * ((16 : Int) : Binary32) * radius_speed * ((-1 : Int) : Binary32)
      = Binary32.fin false 13023314 (-19) :=
  ⟨(orbit_forward_lowers_radius.1 sample_externals32 (0.001 * ((16 : Int) : Binary32))
      [SDL_KEYDOWN SDL_SCANCODE_W] sample_initial32 rfl).1 rfl rfl, by decide⟩

section QuitLemmas

variable {F M R : Type} [FloatArith F]

/-- The local `no_quit` after one event: cleared by the ESC key-down and by the
quit event, kept by every other event. -/
theorem handle_event_no_quit (X : Externals F M R) (st : Bool × ProgramState F M R)
    (event : SDL_Event) :
    (handle_event X st event).1 =
      if event = SDL_KEYDOWN SDL_SCANCODE_ESCAPE ∨ event = SDL_QUIT then false else st.1 := by
  cases event with
  | SDL_KEYDOWN sc => cases sc <;> simp [handle_event]
  | SDL_KEYUP sc => cases sc <;> simp [handle_event]
  | SDL_WINDOWEVENT id d1 d2 => cases id <;> simp [handle_event]
  | _ => simp [handle_event]

/-- The effect of an event on the state does not depend on `no_quit`. -/
theorem handle_event_state (X : Externals F M R) (b b' : Bool) (g : ProgramState F M R)
    (event : SDL_Event) :
    (handle_event X (b, g) event).2 = (handle_event X (b', g) event).2 := by
  cases event with
  | SDL_KEYDOWN sc => cases sc <;> rfl
  | SDL_KEYUP sc => cases sc <;> rfl
  | SDL_WINDOWEVENT id d1 d2 => cases id <;> rfl
  | _ => rfl

/-- The state after a run of events does not depend on `no_quit`. -/
theorem foldl_handle_event_state (X : Externals F M R) (events : List SDL_Event) :
    ∀ (b b' : Bool) (g : ProgramState F M R),
      (events.foldl (handle_event X) (b, g)).2 = (events.foldl (handle_event X) (b', g)).2 := by
  induction events with
  | nil => intro b b' g; rfl
  | cons ev evs ih =>
    intro b b' g
    rw [List.foldl_cons, List.foldl_cons]
    have h1 : handle_event X (b, g) ev
        = ((handle_event X (b, g) ev).1, (handle_event X (b, g) ev).2) := rfl
    have h2 : handle_event X (b', g) ev
        = ((handle_event X (b', g) ev).1, (handle_event X (b, g) ev).2) := by
      rw [handle_event_state X b b' g ev]
    rw [h1, h2]
    exact ih _ _ _

/-- The flag after a run of events is false exactly when it was false before or
one of the events is a quit signal. -/
theorem foldl_handle_event_no_quit (X : Externals F M R) (events : List SDL_Event) :
    ∀ st : Bool × ProgramState F M R,
      (events.foldl (handle_event X) st).1 = false ↔
        st.1 = false ∨ ∃ e ∈ events, e = SDL_KEYDOWN SDL_SCANCODE_ESCAPE ∨ e = SDL_QUIT := by
  induction events with
  | nil => intro st; simp
  | cons ev evs ih =>
    intro st
    rw [List.foldl_cons, ih, handle_event_no_quit]
    by_cases hq : ev = SDL_KEYDOWN SDL_SCANCODE_ESCAPE ∨ ev = SDL_QUIT
    · simp [hq]
    · have hq1 : ev ≠ SDL_KEYDOWN SDL_SCANCODE_ESCAPE := fun h => hq (Or.inl h)
      have hq2 : ev ≠ SDL_QUIT := fun h => hq (Or.inr h)
      simp [hq, hq1, hq2]

/-- A quit signal in the queue changes nothing in the state the queue leads
to. -/
theorem drain_events_skip_quit (X : Externals F M R) (pre post : List SDL_Event)
    (q : SDL_Event) (hq : q = SDL_KEYDOWN SDL_SCANCODE_ESCAPE ∨ q = SDL_QUIT)
    (g : ProgramState F M R) :
    (drain_events X (pre ++ q :: post) g).2 = (drain_events X (pre ++ post) g).2 := by
  unfold drain_events
  rw [List.foldl_append, List.foldl_append, List.foldl_cons]
  have hst : handle_event X (pre.foldl (handle_event X) (true, g)) q
      = (false, (pre.foldl (handle_event X) (true, g)).2) := by
    rcases hq with h | h <;> rw [h] <;> rfl
  rw [hst]
  exact foldl_handle_event_state X post _ _ _

end QuitLemmas

/-- C8: `handle_controls` runs through the whole event queue and returns false
exactly when the queue holds at least one ESC key-down or quit event, and true
exactly when it holds neither; the camera state and the particle store it
leaves are those of the same queue without the quit signal, so the events
after the signal are applied all the same; and in `main` a frame whose queue
holds a quit signal is the last one, whatever frames would follow. -/
theorem handle_controls_quit_iff {F M R : Type} [FloatArith F] (X : Externals F M R) :
    (∀ (dt : F) (events : List SDL_Event) (g : ProgramState F M R),
      ((handle_controls X dt events g).1 = false ↔
        ∃ e ∈ events, e = SDL_KEYDOWN SDL_SCANCODE_ESCAPE ∨ e = SDL_QUIT) ∧
      ((handle_controls X dt events g).1 = true ↔
        ∀ e ∈ events, e ≠ SDL_KEYDOWN SDL_SCANCODE_ESCAPE ∧ e ≠ SDL_QUIT)) ∧
    (∀ (dt : F) (pre post : List SDL_Event) (g : ProgramState F M R),
      (handle_controls X dt (pre ++ SDL_QUIT :: post) g).2
        = (handle_controls X dt (pre ++ post) g).2 ∧
      (handle_controls X dt (pre ++ SDL_KEYDOWN SDL_SCANCODE_ESCAPE :: post) g).2
        = (handle_controls X dt (pre ++ post) g).2) ∧
    (∀ (ticks previous : Int) (pre post : List SDL_Event)
      (frames : List (Int × List SDL_Event)) (g : ProgramState F M R),
      main_loop X ((ticks, pre ++ SDL_QUIT :: post) :: frames) previous g
        = (handle_controls X (0.001 * ((ticks - previous : Int) : F))
            (pre ++ SDL_QUIT :: post) g).2 ∧
      main_loop X ((ticks, pre ++ SDL_KEYDOWN SDL_SCANCODE_ESCAPE :: post) :: frames) previous g
        = (handle_controls X (0.001 * ((ticks - previous : Int) : F))
            (pre ++ SDL_KEYDOWN SDL_SCANCODE_ESCAPE :: post) g).2) ∧
    ((handle_controls sample_externals 1
        [SDL_QUIT, SDL_KEYDOWN SDL_SCANCODE_Z, SDL_KEYDOWN SDL_SCANCODE_W] sample_initial).1
        = false ∧
      (handle_controls sample_externals 1
        [SDL_QUIT, SDL_KEYDOWN SDL_SCANCODE_Z, SDL_KEYDOWN SDL_SCANCODE_W]
        sample_initial).2.vp_list.length = 1 ∧
      (handle_controls sample_externals 1
        [SDL_QUIT, SDL_KEYDOWN SDL_SCANCODE_Z, SDL_KEYDOWN SDL_SCANCODE_W] sample_initial).2.w
        = true) := by
  have hfalse : ∀ (dt : F) (events : List SDL_Event) (g : ProgramState F M R),
      ((handle_controls X dt events g).1 = false ↔
        ∃ e ∈ events, e = SDL_KEYDOWN SDL_SCANCODE_ESCAPE ∨ e = SDL_QUIT) := by
    intro dt events g
    show (events.foldl (handle_event X) (true, g)).1 = false ↔ _
    rw [foldl_handle_event_no_quit]
    simp
  refine ⟨fun dt events g => ⟨hfalse dt events g, ?_⟩, ?_, ?_, rfl, rfl, rfl⟩
  · rw [← Bool.not_eq_false, hfalse]
    constructor
    · intro h e he
      exact ⟨fun h1 => h ⟨e, he, Or.inl h1⟩, fun h2 => h ⟨e, he, Or.inr h2⟩⟩
    · rintro h ⟨e, he, h1 | h2⟩
      · exact (h e he).1 h1
      · exact (h e he).2 h2
  · intro dt pre post g
    constructor
    · show integrate X dt (drain_events X _ g).2 = integrate X dt (drain_events X _ g).2
      rw [drain_events_skip_quit X pre post _ (Or.inr rfl)]
    · show integrate X dt (drain_events X _ g).2 = integrate X dt (drain_events X _ g).2
      rw [drain_events_skip_quit X pre post _ (Or.inl rfl)]
  · intro ticks previous pre post frames g
    have h1 := (hfalse (0.001 * ((ticks - previous : Int) : F)) (pre ++ SDL_QUIT :: post) g).2
      ⟨SDL_QUIT, by simp, Or.inr rfl⟩
    have h2 := (hfalse (0.001 * ((ticks - previous : Int) : F))
      (pre ++ SDL_KEYDOWN SDL_SCANCODE_ESCAPE :: post) g).2
      ⟨SDL_KEYDOWN SDL_SCANCODE_ESCAPE, by simp, Or.inl rfl⟩
    constructor
    · simp only [main_loop, h1, Bool.false_eq_true, if_false]
    · simp only [main_loop, h2, Bool.false_eq_true, if_false]

/-- C9: the index table has 60 entries, all below `particle_vertex_count = 12`;
its 20 triangles each have three distinct corners; every vertex is a corner of
exactly 5 triangles; every directed edge of a triangle belongs to exactly one
triangle and its reverse to exactly one triangle, another one; and the 60
directed edges make 30 undirected edges. -/
theorem particle_elements_closed_surface :
    particle_elements.length = 60 ∧
    particle_element_count = 60 ∧
    particle_vertex_count = 12 ∧
    (∀ i ∈ particle_elements, i < particle_vertex_count) ∧
    (triangles_of particle_elements).length = 20 ∧
    (∀ t ∈ triangles_of particle_elements, t.1 ≠ t.2.1 ∧ t.2.1 ≠ t.2.2 ∧ t.2.2 ≠ t.1) ∧
    (∀ v < particle_vertex_count,
      ((triangles_of particle_elements).filter (triangle_has_vertex v)).length = 5) ∧
    (∀ t ∈ triangles_of particle_elements, ∀ e ∈ triangle_edges t,
      triangles_with_edge (triangles_of particle_elements) e = 1 ∧
      triangles_with_edge (triangles_of particle_elements) (e.2, e.1) = 1 ∧
      (e.2, e.1) ∉ triangle_edges t) ∧
    (((triangles_of particle_elements).map triangle_edges).flatten).length = 60 ∧
    ((((triangles_of particle_elements).map triangle_edges).flatten).map undirected).dedup.length
      = 30 := by
  refine ⟨by decide, by decide, by decide, by decide, by decide, by decide, by decide, ?_,
    by decide, ?_⟩
  · decide
  · decide

section RendererLemmas

/-- A count below `2^31` survives the conversion to `GLsizei`. -/
theorem to_GLsizei_of_lt {n : Nat} (h : n < 2 ^ 31) : to_GLsizei n = (n : Int) := by
  have h1 : n % 2 ^ 32 = n := Nat.mod_eq_of_lt (by omega)
  unfold to_GLsizei
  rw [h1, if_pos h]

/-- The byte size of fewer than `2^31` records survives the `size_t` product
and the conversion to `GLsizeiptr`. -/
theorem to_GLsizeiptr_stride_mul {n : Nat} (h : n < 2 ^ 31) :
    to_GLsizeiptr (size_t_mul sizeof_visual_particle n) = 28 * (n : Int) := by
  have hs : sizeof_visual_particle = 28 := by decide
  have h1 : (28 * n) % 2 ^ 64 = 28 * n := Nat.mod_eq_of_lt (by omega)
  have h2 : 28 * n < 2 ^ 63 := by omega
  unfold to_GLsizeiptr size_t_mul
  rw [hs, h1, h1, if_pos h2]
  push_cast
  rfl

/-- The uploads of the per-frame part: one, of the particle vector. -/
theorem draw_particles_frame_uploads {F M : Type} (st : RendererState) (view projection : M)
    (vp_list : List (visual_particle F)) (position_offset : Vec3 F) :
    buffer_uploads (draw_particles_frame st view projection vp_list position_offset) =
      [(GLenum.GL_ARRAY_BUFFER, to_GLsizeiptr (size_t_mul sizeof_visual_particle vp_list.length),
        BufferSource.particle_ptr vp_list, GLenum.GL_DYNAMIC_DRAW)] := rfl

/-- The draws of the per-frame part: one. -/
theorem draw_particles_frame_draws {F M : Type} (st : RendererState) (view projection : M)
    (vp_list : List (visual_particle F)) (position_offset : Vec3 F) :
    instanced_draws (draw_particles_frame st view projection vp_list position_offset) =
      [((particle_element_count : Int), to_GLsizei vp_list.length)] := rfl

end RendererLemmas

/-- C10 (as stated, refuted): for a vector of `2^31` records the instance count
handed to `DrawElementsInstanced`, a 32-bit signed `GLsizei`, is `-2^31`, not
the length of the vector. -/
theorem draw_particles_instance_count_wraps :
    (List.replicate 2147483648 (⟨0, 0, 0, 0, 0, 0, 0⟩ : visual_particle ℚ)).length
      = 2147483648 ∧
    instanced_draws
        (draw_particles_frame RendererState.initial ([] : List ℚ) []
          (List.replicate 2147483648 (⟨0, 0, 0, 0, 0, 0, 0⟩ : visual_particle ℚ)) ⟨0, 0, 0⟩)
      = [(60, -2147483648)] ∧
    instanced_draws
        (draw_particles_frame RendererState.initial ([] : List ℚ) []
          (List.replicate 2147483648 (⟨0, 0, 0, 0, 0, 0, 0⟩ : visual_particle ℚ)) ⟨0, 0, 0⟩)
      ≠ [(60, (((List.replicate 2147483648
            (⟨0, 0, 0, 0, 0, 0, 0⟩ : visual_particle ℚ)).length : Nat) : Int))] := by
  refine ⟨List.length_replicate _ _, ?_, ?_⟩
  · rw [draw_particles_frame_draws, List.length_replicate]
    decide
  · rw [draw_particles_frame_draws, List.length_replicate]
    decide

/-- C10 (amended): for every particle list of length `n < 2^31`, the per-frame
part of `draw_particles` binds the instance buffer, uploads exactly `28 * n`
bytes from the start of the list (the byte length of the whole list) and then
issues exactly one instanced draw of 60 indices with instance count `n`; these
are its only upload and draw; for the empty list the size and the instance
count are 0 and the draw is still issued; and once the vertex array exists a
call of `draw_particles` issues just these calls. -/
theorem draw_particles_frame_upload_and_draw {F M : Type} (st : RendererState)
    (view projection : M) (vp_list : List (visual_particle F)) (position_offset : Vec3 F)
    (h : vp_list.length < 2 ^ 31) :
    draw_particles_frame st view projection vp_list position_offset =
      [ GLCall.UseProgram st.program_id,
        GLCall.UniformMatrix4fv st.view_matrix_id 1 false view,
        GLCall.UniformMatrix4fv st.proj_matrix_id 1 false projection,
        GLCall.Uniform3fv st.uniform_position_id 1 position_offset,
        GLCall.BindVertexArray st.vao,
        GLCall.BindBuffer GLenum.GL_ARRAY_BUFFER st.instance_buffer_id,
        GLCall.BufferData GLenum.GL_ARRAY_BUFFER (28 * (vp_list.length : Int))
          (BufferSource.particle_ptr vp_list) GLenum.GL_DYNAMIC_DRAW,
        GLCall.DrawElementsInstanced GLenum.GL_TRIANGLES 60 GLenum.GL_UNSIGNED_SHORT 0
          (vp_list.length : Int),
        GLCall.BindVertexArray 0,
        GLCall.GetError ] ∧
    buffer_uploads (draw_particles_frame st view projection vp_list position_offset) =
      [(GLenum.GL_ARRAY_BUFFER, 28 * (vp_list.length : Int), BufferSource.particle_ptr vp_list,
        GLenum.GL_DYNAMIC_DRAW)] ∧
    instanced_draws (draw_particles_frame st view projection vp_list position_offset) =
      [(60, (vp_list.length : Int))] ∧
    buffer_uploads (draw_particles_frame st view projection ([] : List (visual_particle F))
        position_offset) =
      [(GLenum.GL_ARRAY_BUFFER, 0, BufferSource.particle_ptr [], GLenum.GL_DYNAMIC_DRAW)] ∧
    instanced_draws (draw_particles_frame st view projection ([] : List (visual_particle F))
        position_offset) = [(60, 0)] ∧
    (∀ (B : GLResponses), st.vao ≠ 0 →
      (draw_particles B st view projection vp_list position_offset).calls =
        draw_particles_frame st view projection vp_list position_offset) ∧
    (∀ bits : List (visual_particle Float32Bits), bits.length = vp_list.length →
      28 * (vp_list.length : Int) = ((vp_list_bytes bits).length : Int)) := by
  have h1 := to_GLsizei_of_lt h
  have h2 := to_GLsizeiptr_stride_mul h
  have hcount : ((particle_element_count : Nat) : Int) = 60 := rfl
  refine ⟨?_, ?_, ?_, rfl, rfl, ?_, ?_⟩
  · unfold draw_particles_frame
    simp only [h1, h2, hcount]
  · rw [draw_particles_frame_uploads, h2]
  · rw [draw_particles_frame_draws, h1, hcount]
  · intro B hvao
    simp [draw_particles, hvao]
  · intro bits hb
    rw [vp_list_bytes_length, hb]
    have hs : sizeof_visual_particle = 28 := by decide
    rw [hs]
    push_cast
    rfl

/-- C10 (amended), at a concrete input: a list of two records. -/
theorem draw_particles_frame_upload_and_draw_witness :
    ([⟨1, 2, 3, 0, 0, 1, 1⟩, ⟨0, 0, 0, 1, 1, 1, 2⟩] : List (visual_particle ℚ)).length < 2 ^ 31 ∧
    buffer_uploads
        (draw_particles_frame RendererState.initial ([] : List ℚ) []
          ([⟨1, 2, 3, 0, 0, 1, 1⟩, ⟨0, 0, 0, 1, 1, 1, 2⟩] : List (visual_particle ℚ)) ⟨0, 0, 0⟩)
      = [(GLenum.GL_ARRAY_BUFFER, 56,
          BufferSource.particle_ptr [⟨1, 2, 3, 0, 0, 1, 1⟩, ⟨0, 0, 0, 1, 1, 1, 2⟩],
          GLenum.GL_DYNAMIC_DRAW)] ∧
    instanced_draws
        (draw_particles_frame RendererState.initial ([] : List ℚ) []
          ([⟨1, 2, 3, 0, 0, 1, 1⟩, ⟨0, 0, 0, 1, 1, 1, 2⟩] : List (visual_particle ℚ)) ⟨0, 0, 0⟩)
      = [(60, 2)] :=
  ⟨by decide,
    (draw_particles_frame_upload_and_draw RendererState.initial ([] : List ℚ) []
      ([⟨1, 2, 3, 0, 0, 1, 1⟩, ⟨0, 0, 0, 1, 1, 1, 2⟩] : List (visual_particle ℚ)) ⟨0, 0, 0⟩
      (by decide)).2.1,
    (draw_particles_frame_upload_and_draw RendererState.initial ([] : List ℚ) []
      ([⟨1, 2, 3, 0, 0, 1, 1⟩, ⟨0, 0, 0, 1, 1, 1, 2⟩] : List (visual_particle ℚ)) ⟨0, 0, 0⟩
      (by decide)).2.2.1⟩

/-- C11 (as stated, refuted): over the reals with the true sine and cosine, the
start state updated over 0.4 s with Q pressed stays in Orbit mode and ends with
`phi = 1.1`, but its eye was computed from `phi = 1.8`, the value before the
rotation step, so it is not `center - radius * forward(theta, phi)` at the
values held after the update. -/
theorem orbit_eye_not_from_angles_after_update :
    (handle_controls (externals_of Real.sin Real.cos) (2 / 5) [SDL_KEYDOWN SDL_SCANCODE_Q]
        (initial_state [] [] ⟨0, 0, 0⟩ 1)).2.orbit_mode = true ∧
    (handle_controls (externals_of Real.sin Real.cos) (2 / 5) [SDL_KEYDOWN SDL_SCANCODE_Q]
        (initial_state [] [] ⟨0, 0, 0⟩ 1)).2.eye ≠
      Vec3.sub ⟨0, 0, 0⟩
        (Vec3.smul
          (handle_controls (externals_of Real.sin Real.cos) (2 / 5) [SDL_KEYDOWN SDL_SCANCODE_Q]
            (initial_state [] [] ⟨0, 0, 0⟩ 1)).2.radius
          (forward_normal_vector (externals_of Real.sin Real.cos)
            (handle_controls (externals_of Real.sin Real.cos) (2 / 5)
              [SDL_KEYDOWN SDL_SCANCODE_Q] (initial_state [] [] ⟨0, 0, 0⟩ 1)).2.theta
            (handle_controls (externals_of Real.sin Real.cos) (2 / 5)
              [SDL_KEYDOWN SDL_SCANCODE_Q] (initial_state [] [] ⟨0, 0, 0⟩ 1)).2.phi)) := by
  refine ⟨rfl, ?_⟩
  intro h
  have hy := congrArg Vec3.y h
  simp [handle_controls, drain_events, handle_event, integrate, initial_state, externals_of,
    forward_normal_vector, Vec3.sub, Vec3.smul, clamp_eq_min_max, b2i, radius_speed] at hy
  have h25 : ¬ ((25.0 : ℝ) = 0) := by norm_num
  have hy' := hy.resolve_right h25
  have hx : (1.8 + -(2 / 5 * 1.75) : ℝ) = 1.1 := by norm_num
  have hmax : max (1.1 : ℝ) 1e-2 = 1.1 := max_eq_left (by norm_num)
  have hmin : min (1.1 : ℝ) 3.13 = 1.1 := min_eq_left (by norm_num)
  rw [hx, hmax, hmin] at hy'
  have hpi := Real.pi_gt_three
  have hlt : Real.cos 1.8 < Real.cos 1.1 :=
    Real.strictAntiOn_cos ⟨by norm_num, by linarith⟩ ⟨by norm_num, by linarith⟩ (by norm_num)
  exact absurd hy' (ne_of_lt hlt)

/-- C11 (amended): after every update that ends in Orbit mode, for any event
queue, held keys and `dt`, the eye equals `center - radius * forward(theta0,
phi0)` with `center = (0,0,0)` and `forward(t, p) = (sin p * cos t, cos p,
sin p * sin t)`, where `radius` is the value held after the update and
`theta0`, `phi0` are the angles as they are after the events of that update,
before its key-driven rotation and its clamp; the angles held after the update
are `theta0 + dt * 2 * (a - d)` and the clamp of `phi0 + dt * 1.75 * (e - q)`,
so the eye is the claimed one whenever these equal `theta0` and `phi0`. -/
theorem orbit_eye_from_angles_before_step {F M R : Type} [FloatArith F]
    (X : Externals F M R) (dt : F) (events : List SDL_Event) (g : ProgramState F M R)
    (h_orbit : (handle_controls X dt events g).2.orbit_mode = true) :
    (handle_controls X dt events g).2.eye =
      Vec3.sub ⟨0, 0, 0⟩
        (Vec3.smul (handle_controls X dt events g).2.radius
          (forward_normal_vector X (drain_events X events g).2.theta
            (drain_events X events g).2.phi)) ∧
    (∀ t p : F, forward_normal_vector X t p
      = ⟨X.sinf p * X.cosf t, X.cosf p, X.sinf p * X.sinf t⟩) ∧
    (handle_controls X dt events g).2.theta =
      (drain_events X events g).2.theta +
        dt * 2.0 * ((b2i (drain_events X events g).2.a - b2i (drain_events X events g).2.d : Int) : F) ∧
    (handle_controls X dt events g).2.phi =
      clamp ((drain_events X events g).2.phi +
        dt * 1.75 * ((b2i (drain_events X events g).2.e - b2i (drain_events X events g).2.q : Int) : F))
        0.01 3.13 ∧
    ((handle_controls X dt events g).2.theta = (drain_events X events g).2.theta →
      (handle_controls X dt events g).2.phi = (drain_events X events g).2.phi →
      (handle_controls X dt events g).2.eye =
        Vec3.sub ⟨0, 0, 0⟩
          (Vec3.smul (handle_controls X dt events g).2.radius
            (forward_normal_vector X (handle_controls X dt events g).2.theta
              (handle_controls X dt events g).2.phi))) := by
  have hfl := integrate_flags X dt (drain_events X events g).2
  have hprev :
      (handle_controls X dt events g).2 = integrate X dt (drain_events X events g).2 := rfl
  rw [hprev] at h_orbit
  have ho := integrate_orbit X dt (drain_events X events g).2 (hfl.1.symm.trans h_orbit)
  rw [hprev]
  refine ⟨ho.2.2.2.1, fun _ _ => rfl, ho.1, ho.2.1, ?_⟩
  intro ht hp
  rw [ht, hp]
  exact ho.2.2.2.1

/-- C11 (amended), at a concrete input: the start state updated over 1 s with A
pressed ends in Orbit mode, with the eye built from `theta0 = 1.5707` and
`phi0 = 1.8`. -/
theorem orbit_eye_from_angles_before_step_witness :
    (handle_controls sample_externals 1 [SDL_KEYDOWN SDL_SCANCODE_A] sample_initial).2.orbit_mode
      = true ∧
    (handle_controls sample_externals 1 [SDL_KEYDOWN SDL_SCANCODE_A] sample_initial).2.eye =
      Vec3.sub ⟨0, 0, 0⟩
        (Vec3.smul
          (handle_controls sample_externals 1 [SDL_KEYDOWN SDL_SCANCODE_A] sample_initial).2.radius
          (forward_normal_vector sample_externals
            (drain_events sample_externals [SDL_KEYDOWN SDL_SCANCODE_A] sample_initial).2.theta
            (drain_events sample_externals [SDL_KEYDOWN SDL_SCANCODE_A] sample_initial).2.phi)) :=
  ⟨rfl,
    (orbit_eye_from_angles_before_step sample_externals 1 [SDL_KEYDOWN SDL_SCANCODE_A]
      sample_initial rfl).1⟩

section WheelLemmas

variable {F M R : Type} [FloatArith F]

/-- Only a mouse-wheel event writes `phi` in the event loop. -/
theorem handle_event_phi_of_not_wheel (X : Externals F M R) (st : Bool × ProgramState F M R)
    (event : SDL_Event) (h : ∀ x y : Int, event ≠ SDL_MOUSEWHEEL x y) :
    (handle_event X st event).2.phi = st.2.phi := by
  cases event with
  | SDL_KEYDOWN sc => cases sc <;> rfl
  | SDL_KEYUP sc => cases sc <;> rfl
  | SDL_WINDOWEVENT id d1 d2 => cases id <;> rfl
  | SDL_MOUSEWHEEL x y => exact absurd rfl (h x y)
  | _ => rfl

/-- A queue without mouse-wheel events leaves `phi` as it was. -/
theorem drain_events_phi_of_no_wheel (X : Externals F M R) (events : List SDL_Event)
    (g : ProgramState F M R) (h : ∀ e ∈ events, ∀ x y : Int, e ≠ SDL_MOUSEWHEEL x y) :
    (drain_events X events g).2.phi = g.phi := by
  have key : ∀ (evs : List SDL_Event) (st : Bool × ProgramState F M R),
      (∀ e ∈ evs, ∀ x y : Int, e ≠ SDL_MOUSEWHEEL x y) →
      (evs.foldl (handle_event X) st).2.phi = st.2.phi := by
    intro evs
    induction evs with
    | nil => intro st _; rfl
    | cons ev evs ih =>
      intro st hev
      rw [List.foldl_cons, ih _ (fun e he => hev e (List.mem_cons_of_mem _ he)),
        handle_event_phi_of_not_wheel X st ev (hev ev (List.mem_cons_self _ _))]
  exact key events (true, g) h

end WheelLemmas

/-- C12 (the code at the failing input): over the reals with the true sine and
cosine, from the start state a queue holding the mouse-wheel event `(0, -45)`
leaves `phi = 0` when the forward vector is computed, so the forward vector is
`(0, 1, 0)`, the world up vector itself, and the eye of that update is
`(0, -25, 0)`; only afterwards is `phi` clamped to 0.01.  With the wheel event
`(0, -50)` the forward vector is computed from `phi = -0.2`.  A queue without
mouse-wheel events leaves `phi` as the update before clamped it, so then the
forward vector is computed from a `phi` within `[0.01, 3.13]`; in an arithmetic
that satisfies `FloatLaws`, single precision included, from a `phi` that is
neither less than 0.01 nor greater than 3.13.  In single precision the wheel
event `(0, -45)` leaves `phi = +0` exactly when the forward vector is computed,
and the update ends with `phi = 0.01f`. -/
theorem forward_vector_uses_unclamped_phi :
    (drain_events (externals_of Real.sin Real.cos) [SDL_MOUSEWHEEL 0 (-45)]
        (initial_state [] [] ⟨0, 0, 0⟩ 1)).2.phi = 0 ∧
    forward_normal_vector (externals_of Real.sin Real.cos)
        (drain_events (externals_of Real.sin Real.cos) [SDL_MOUSEWHEEL 0 (-45)]
          (initial_state [] [] ⟨0, 0, 0⟩ 1)).2.theta
        (drain_events (externals_of Real.sin Real.cos) [SDL_MOUSEWHEEL 0 (-45)]
          (initial_state [] [] ⟨0, 0, 0⟩ 1)).2.phi = ⟨0, 1, 0⟩ ∧
    (handle_controls (externals_of Real.sin Real.cos) 0 [SDL_MOUSEWHEEL 0 (-45)]
        (initial_state [] [] ⟨0, 0, 0⟩ 1)).2.eye = ⟨0, -25, 0⟩ ∧
    (handle_controls (externals_of Real.sin Real.cos) 0 [SDL_MOUSEWHEEL 0 (-45)]
        (initial_state [] [] ⟨0, 0, 0⟩ 1)).2.phi = 0.01 ∧
    (drain_events (externals_of Real.sin Real.cos) [SDL_MOUSEWHEEL 0 (-50)]
        (initial_state [] [] ⟨0, 0, 0⟩ 1)).2.phi = -0.2 ∧
    (∀ {F M R : Type} [LinearOrderedField F] (X : Externals F M R) (dt0 : F)
        (events0 events : List SDL_Event) (g0 : ProgramState F M R),
      (∀ e ∈ events, ∀ x y : Int, e ≠ SDL_MOUSEWHEEL x y) →
      (0.01 : F) ≤ (drain_events X events (handle_controls X dt0 events0 g0).2).2.phi ∧
        (drain_events X events (handle_controls X dt0 events0 g0).2).2.phi ≤ 3.13) ∧
    (∀ theta phi : ℝ, 0.01 ≤ phi → phi ≤ 3.13 →
      ¬ ((forward_normal_vector (externals_of Real.sin Real.cos) theta phi).x = 0 ∧
        (forward_normal_vector (externals_of Real.sin Real.cos) theta phi).z = 0)) ∧
    (∀ {F M R : Type} [FloatArith F], FloatLaws F → ∀ (X : Externals F M R) (dt0 : F)
        (events0 events : List SDL_Event) (g0 : ProgramState F M R),
      (∀ e ∈ events, ∀ x y : Int, e ≠ SDL_MOUSEWHEEL x y) →
      ¬ (drain_events X events (handle_controls X dt0 events0 g0).2).2.phi < 0.01 ∧
        ¬ 3.13 < (drain_events X events (handle_controls X dt0 events0 g0).2).2.phi) ∧
    (drain_events sample_externals32 [SDL_MOUSEWHEEL 0 (-45)] sample_initial32).2.phi
      = Binary32.zero false ∧
    (handle_controls sample_externals32 0 [SDL_MOUSEWHEEL 0 (-45)] sample_initial32).2.phi
      = 0.01 := by
  have hw45 : wrap_int32 (-45) = -45 := by decide
  have hw50 : wrap_int32 (-50) = -50 := by decide
  have h45 : (drain_events (externals_of Real.sin Real.cos) [SDL_MOUSEWHEEL 0 (-45)]
        (initial_state [] [] ⟨0, 0, 0⟩ 1)).2.phi = 0 := by
    simp [drain_events, handle_event, initial_state, hw45]
    norm_num
  refine ⟨h45, ?_, ?_, ?_, ?_, ?_, ?_, ?_, by decide, by decide⟩
  · rw [h45]
    simp [forward_normal_vector, externals_of]
  · have hfwd : (handle_controls (externals_of Real.sin Real.cos) 0 [SDL_MOUSEWHEEL 0 (-45)]
        (initial_state [] [] ⟨0, 0, 0⟩ 1)).2.eye
        = Vec3.sub ⟨0, 0, 0⟩ (Vec3.smul 25.0
            (forward_normal_vector (externals_of Real.sin Real.cos)
              (drain_events (externals_of Real.sin Real.cos) [SDL_MOUSEWHEEL 0 (-45)]
                (initial_state [] [] ⟨0, 0, 0⟩ 1)).2.theta
              (drain_events (externals_of Real.sin Real.cos) [SDL_MOUSEWHEEL 0 (-45)]
                (initial_state [] [] ⟨0, 0, 0⟩ 1)).2.phi)) := by
      simp [handle_controls, integrate, drain_events, handle_event, initial_state, b2i]
    rw [hfwd, h45]
    simp [forward_normal_vector, externals_of, Vec3.sub, Vec3.smul]
    norm_num
  · simp [handle_controls, integrate, drain_events, handle_event, initial_state, b2i,
      clamp_eq_min_max, hw45]
    norm_num
  · simp [drain_events, handle_event, initial_state, hw50]
    norm_num
  · intro F M R _ X dt0 events0 events g0 hno
    rw [drain_events_phi_of_no_wheel X events _ hno]
    exact handle_controls_phi_bounds X dt0 events0 g0
  · intro theta phi h1 h2 hpar
    have hpi := Real.pi_gt_d2
    have hsin : 0 < Real.sin phi :=
      Real.sin_pos_of_pos_of_lt_pi (by linarith) (by linarith)
    have hx : Real.sin phi * Real.cos theta = 0 := hpar.1
    have hz : Real.sin phi * Real.sin theta = 0 := hpar.2
    have hc : Real.cos theta = 0 := (mul_eq_zero.mp hx).resolve_left (ne_of_gt hsin)
    have hs : Real.sin theta = 0 := (mul_eq_zero.mp hz).resolve_left (ne_of_gt hsin)
    have hone := Real.sin_sq_add_cos_sq theta
    rw [hc, hs] at hone
    norm_num at hone
  · intro F M R _ L X dt0 events0 events g0 hno
    rw [drain_events_phi_of_no_wheel X events _ hno]
    exact clamp_not_outside L _

/-- The product `1 * w` of the wheel case stays within `int`. -/
theorem wrap_int32_one_mul (w : Int) (h1 : -2147483648 ≤ w) (h2 : w < 2147483648) :
    wrap_int32 (1 * w) = w := by
  unfold wrap_int32
  omega

/-- The product `-1 * w` of the wheel case stays within `int` unless `w` is
`INT_MIN`. -/
theorem wrap_int32_neg_one_mul (w : Int) (h1 : -2147483648 < w) (h2 : w < 2147483648) :
    wrap_int32 (-1 * w) = -w := by
  unfold wrap_int32
  omega

/-- The addend of the wheel case for the product `-1 * w`: the negation of the
addend for `w`, when `w` is neither 0 nor `INT_MIN`. -/
theorem wheel_addend_neg {F : Type} [FloatArith F] (L : FloatLaws F) (w : Int)
    (h1 : -2147483648 < w) (h2 : w < 2147483648) (h0 : w ≠ 0) :
    ((wrap_int32 (-1 * w) : Int) : F) * 0.04 = -(((w : Int) : F) * 0.04) := by
  rw [wrap_int32_neg_one_mul w h1 h2, L.intCast_neg w h0, L.neg_mul]

/-- C13 (as stated, refuted), in single precision from the start state
(`theta = 1.5707f`).  For the wheel event with `x = 12` the update in Orbit
mode gives `theta = 8601259 * 2 ^ (-22)` and in FreeFlight mode
`theta = 9149455 * 2 ^ (-23)`: the change in FreeFlight is not the negation of
the change in Orbit, whether the two differences are taken exactly or by the
`float` subtraction, and the change in Orbit is not `0.04f * 12`.  For
`x = INT_MIN` the product `-1 * x` leaves the range of `int`, and both modes
end with the same `theta = -(10737418 * 2 ^ 3)`, below the old value. -/
theorem mouse_wheel_change_not_negated :
    (handle_event sample_externals32 (true, { sample_initial32 with orbit_mode := true })
        (SDL_MOUSEWHEEL 12 0)).2.theta = Binary32.fin false 8601259 (-22) ∧
    (handle_event sample_externals32 (true, { sample_initial32 with orbit_mode := false })
        (SDL_MOUSEWHEEL 12 0)).2.theta = Binary32.fin false 9149455 (-23) ∧
    Binary32.scaled (handle_event sample_externals32
          (true, { sample_initial32 with orbit_mode := false }) (SDL_MOUSEWHEEL 12 0)).2.theta
        - Binary32.scaled sample_initial32.theta
      ≠ -(Binary32.scaled (handle_event sample_externals32
            (true, { sample_initial32 with orbit_mode := true }) (SDL_MOUSEWHEEL 12 0)).2.theta
          - Binary32.scaled sample_initial32.theta) ∧
    (handle_event sample_externals32 (true, { sample_initial32 with orbit_mode := false })
          (SDL_MOUSEWHEEL 12 0)).2.theta - sample_initial32.theta
      ≠ -((handle_event sample_externals32 (true, { sample_initial32 with orbit_mode := true })
            (SDL_MOUSEWHEEL 12 0)).2.theta - sample_initial32.theta) ∧
    Binary32.scaled (handle_event sample_externals32
          (true, { sample_initial32 with orbit_mode := true }) (SDL_MOUSEWHEEL 12 0)).2.theta
        - Binary32.scaled sample_initial32.theta
      ≠ Binary32.scaled ((0.04 : Binary32) * ((12 : Int) : Binary32)) ∧
    (handle_event sample_externals32 (true, { sample_initial32 with orbit_mode := true })
        (SDL_MOUSEWHEEL (-2147483648) 0)).2.theta = Binary32.fin true 10737418 3 ∧
    (handle_event sample_externals32 (true, { sample_initial32 with orbit_mode := false })
        (SDL_MOUSEWHEEL (-2147483648) 0)).2.theta = Binary32.fin true 10737418 3 ∧
    Binary32.fin true 10737418 3 < sample_initial32.theta := by
  decide

/-- C13 (amended): a mouse-wheel event `(wx, wy)` is applied in the event loop,
before the motion step, and writes `theta` and `phi` only: it adds
`float(k * wx) * 0.04f` to `theta` and `float(k * wy) * 0.04f` to `phi`, the
sums and products being those of `float` and `k * w` the `int` product with
`k = 1` in Orbit mode and `k = -1` in FreeFlight mode.  For payloads within
`int` the addend in Orbit mode is `float(w) * 0.04f`; in FreeFlight mode it is
the negation of that, for `w` other than 0 and `INT_MIN`; for `w = 0` both
modes add `float(0) * 0.04f`; for `w = INT_MIN` FreeFlight gives what Orbit
gives.  In exact arithmetic, for payloads other than `INT_MIN`, Orbit adds
`0.04 * w`, FreeFlight adds `-(0.04 * w)`, and the change of each angle in
FreeFlight is the negation of its change in Orbit. -/
theorem mouse_wheel_changes_angles {F M R : Type} [FloatArith F] (L : FloatLaws F)
    (X : Externals F M R) :
    (∀ (no_quit : Bool) (g : ProgramState F M R) (wx wy : Int),
      handle_event X (no_quit, g) (SDL_MOUSEWHEEL wx wy) =
        (no_quit,
          { g with
            phi := g.phi
              + ((wrap_int32 ((if g.orbit_mode then 1 else -1) * wy) : Int) : F) * 0.04
            theta := g.theta
              + ((wrap_int32 ((if g.orbit_mode then 1 else -1) * wx) : Int) : F) * 0.04 })) ∧
    (∀ (no_quit : Bool) (g : ProgramState F M R) (wx wy : Int),
      (-2147483648 ≤ wx → wx < 2147483648 →
        (handle_event X (no_quit, { g with orbit_mode := true }) (SDL_MOUSEWHEEL wx wy)).2.theta
          = g.theta + ((wx : Int) : F) * 0.04) ∧
      (-2147483648 ≤ wy → wy < 2147483648 →
        (handle_event X (no_quit, { g with orbit_mode := true }) (SDL_MOUSEWHEEL wx wy)).2.phi
          = g.phi + ((wy : Int) : F) * 0.04) ∧
      (-2147483648 < wx → wx < 2147483648 → wx ≠ 0 →
        (handle_event X (no_quit, { g with orbit_mode := false }) (SDL_MOUSEWHEEL wx wy)).2.theta
          = g.theta + -(((wx : Int) : F) * 0.04)) ∧
      (-2147483648 < wy → wy < 2147483648 → wy ≠ 0 →
        (handle_event X (no_quit, { g with orbit_mode := false }) (SDL_MOUSEWHEEL wx wy)).2.phi
          = g.phi + -(((wy : Int) : F) * 0.04))) ∧
    (∀ (no_quit : Bool) (g : ProgramState F M R) (w : Int),
      (handle_event X (no_quit, g) (SDL_MOUSEWHEEL 0 w)).2.theta
        = g.theta + ((0 : Int) : F) * 0.04 ∧
      (handle_event X (no_quit, g) (SDL_MOUSEWHEEL w 0)).2.phi
        = g.phi + ((0 : Int) : F) * 0.04 ∧
      (handle_event X (no_quit, { g with orbit_mode := false })
          (SDL_MOUSEWHEEL (-2147483648) w)).2.theta
        = (handle_event X (no_quit, { g with orbit_mode := true })
            (SDL_MOUSEWHEEL (-2147483648) w)).2.theta ∧
      (handle_event X (no_quit, { g with orbit_mode := false })
          (SDL_MOUSEWHEEL w (-2147483648))).2.phi
        = (handle_event X (no_quit, { g with orbit_mode := true })
            (SDL_MOUSEWHEEL w (-2147483648))).2.phi) ∧
    (∀ (dt : F) (g : ProgramState F M R) (wx wy : Int),
      handle_controls X dt [SDL_MOUSEWHEEL wx wy] g =
        (true, integrate X dt (handle_event X (true, g) (SDL_MOUSEWHEEL wx wy)).2)) ∧
    (∀ {F M R : Type} [LinearOrderedField F] (X : Externals F M R) (no_quit : Bool)
        (g : ProgramState F M R) (wx wy : Int),
      -2147483648 < wx → wx < 2147483648 → -2147483648 < wy → wy < 2147483648 →
      (handle_event X (no_quit, { g with orbit_mode := true }) (SDL_MOUSEWHEEL wx wy)).2.theta
        = g.theta + 0.04 * (wx : F) ∧
      (handle_event X (no_quit, { g with orbit_mode := true }) (SDL_MOUSEWHEEL wx wy)).2.phi
        = g.phi + 0.04 * (wy : F) ∧
      (handle_event X (no_quit, { g with orbit_mode := false }) (SDL_MOUSEWHEEL wx wy)).2.theta
        = g.theta + -(0.04 * (wx : F)) ∧
      (handle_event X (no_quit, { g with orbit_mode := false }) (SDL_MOUSEWHEEL wx wy)).2.phi
        = g.phi + -(0.04 * (wy : F)) ∧
      (handle_event X (no_quit, { g with orbit_mode := false }) (SDL_MOUSEWHEEL wx wy)).2.theta
          - g.theta
        = -((handle_event X (no_quit, { g with orbit_mode := true })
              (SDL_MOUSEWHEEL wx wy)).2.theta - g.theta) ∧
      (handle_event X (no_quit, { g with orbit_mode := false }) (SDL_MOUSEWHEEL wx wy)).2.phi
          - g.phi
        = -((handle_event X (no_quit, { g with orbit_mode := true })
              (SDL_MOUSEWHEEL wx wy)).2.phi - g.phi)) := by
  have horbit : ∀ w : Int, -2147483648 ≤ w → w < 2147483648 →
      ((wrap_int32 (1 * w) : Int) : F) * 0.04 = ((w : Int) : F) * 0.04 := by
    intro w h1 h2
    rw [wrap_int32_one_mul w h1 h2]
  have hzero : ∀ b : Bool, wrap_int32 ((if b then 1 else -1) * 0) = 0 := by
    intro b
    cases b <;> decide
  refine ⟨fun _ _ _ _ => rfl, ?_, ?_, fun _ _ _ _ => rfl, ?_⟩
  · intro no_quit g wx wy
    refine ⟨fun h1 h2 => ?_, fun h1 h2 => ?_, fun h1 h2 h0 => ?_, fun h1 h2 h0 => ?_⟩
    · show g.theta + ((wrap_int32 (1 * wx) : Int) : F) * 0.04 = _
      rw [horbit wx h1 h2]
    · show g.phi + ((wrap_int32 (1 * wy) : Int) : F) * 0.04 = _
      rw [horbit wy h1 h2]
    · show g.theta + ((wrap_int32 (-1 * wx) : Int) : F) * 0.04 = _
      rw [wheel_addend_neg L wx h1 h2 h0]
    · show g.phi + ((wrap_int32 (-1 * wy) : Int) : F) * 0.04 = _
      rw [wheel_addend_neg L wy h1 h2 h0]
  · intro no_quit g w
    refine ⟨?_, ?_, rfl, rfl⟩
    · show g.theta + ((wrap_int32 ((if g.orbit_mode then 1 else -1) * 0) : Int) : F) * 0.04 = _
      rw [hzero]
    · show g.phi + ((wrap_int32 ((if g.orbit_mode then 1 else -1) * 0) : Int) : F) * 0.04 = _
      rw [hzero]
  · intro F M R _ X no_quit g wx wy h1 h2 h3 h4
    have e1 : (handle_event X (no_quit, { g with orbit_mode := true })
        (SDL_MOUSEWHEEL wx wy)).2.theta = g.theta + 0.04 * (wx : F) := by
      show g.theta + ((wrap_int32 (1 * wx) : Int) : F) * 0.04 = _
      rw [wrap_int32_one_mul wx (le_of_lt h1) h2]
      ring
    have e2 : (handle_event X (no_quit, { g with orbit_mode := true })
        (SDL_MOUSEWHEEL wx wy)).2.phi = g.phi + 0.04 * (wy : F) := by
      show g.phi + ((wrap_int32 (1 * wy) : Int) : F) * 0.04 = _
      rw [wrap_int32_one_mul wy (le_of_lt h3) h4]
      ring
    have e3 : (handle_event X (no_quit, { g with orbit_mode := false })
        (SDL_MOUSEWHEEL wx wy)).2.theta = g.theta + -(0.04 * (wx : F)) := by
      show g.theta + ((wrap_int32 (-1 * wx) : Int) : F) * 0.04 = _
      rw [wrap_int32_neg_one_mul wx h1 h2]
      push_cast
      ring
    have e4 : (handle_event X (no_quit, { g with orbit_mode := false })
        (SDL_MOUSEWHEEL wx wy)).2.phi = g.phi + -(0.04 * (wy : F)) := by
      show g.phi + ((wrap_int32 (-1 * wy) : Int) : F) * 0.04 = _
      rw [wrap_int32_neg_one_mul wy h3 h4]
      push_cast
      ring
    refine ⟨e1, e2, e3, e4, ?_, ?_⟩
    · rw [e1, e3]
      ring
    · rw [e2, e4]
      ring

/-- C13 (amended), at a concrete input in single precision: from the start
state put into FreeFlight mode, the wheel event with `x = 12` sets `theta` to
`theta + -(float(12) * 0.04f)`, which is `9149455 * 2 ^ (-23)`. -/
theorem mouse_wheel_changes_angles_witness :
    (handle_event sample_externals32 (true, { sample_initial32 with orbit_mode := false })
        (SDL_MOUSEWHEEL 12 0)).2.theta
      = sample_initial32.theta + -(((12 : Int) : Binary32) * 0.04) ∧
    sample_initial32.theta + -(((12 : Int) : Binary32) * 0.04)
      = Binary32.fin false 9149455 (-23) :=
  ⟨((mouse_wheel_changes_angles binary32_float_laws sample_externals32).2.1 true
      sample_initial32 12 0).2.2.1 (by decide) (by decide) (by decide), by decide⟩

end GlThrowaway
